import Mathlib

/-!
Shallow embedding of the AI help-desk backend (Moin-1304/Ai-chat, `backend/app`)
and proofs about its specification claims.

Modelling conventions:
* Python strings are Lean `String`s; all character-level operations
  (lower-casing, substring search, splitting, slicing) are implemented as
  structural functions over `String.data : List Char` so that every
  definition evaluates inside the kernel (`decide` / `rfl`).
* Python `float` scores are modelled as exact rationals `ℚ`.  The arithmetic
  the code performs on scores (sums, products of decimal constants) is
  implemented by the kernel-reducible helpers `qAdd`, `qMul`, `qSub`, `qDiv`
  (Mathlib's `Rat.add` etc. are `@[irreducible]`); lemmas `qAdd_eq` … show
  they agree with the field operations on `ℚ`.
* Database sessions are modelled by an explicit transaction state `Tx`
  (committed rows, pending rows, and a flag saying whether `commit` fails);
  a raised-and-propagated exception is modelled as a `Bool` result flag.
* `re.search` on the guardrail patterns: every pattern in the source is a
  sequence of literal substrings separated by `.*` (the one alternation
  group `(?:fix|debug|repair|modify|command|how.*to.*fix)` is expanded into
  the equivalent list of such sequences).  Since `.` does not match `\n`,
  a pattern `a.*b` matches iff some newline-free line of the subject
  contains `a` followed (disjointly) by `b`; `rxSearch` implements exactly
  that with a leftmost-first greedy scan, which is complete for
  literal-gap patterns.
-/

namespace HelpDesk

/-! ## String primitives (kernel-computable models of the Python `str` API) -/

/-- Model of Python `str.lower()` (the source only lower-cases ASCII text). -/
def pyLower (s : String) : String := String.mk (s.data.map Char.toLower)

/-- Model of Python `str.upper()`. -/
def pyUpper (s : String) : String := String.mk (s.data.map Char.toUpper)

/-- Does `hay` contain `pat` as a contiguous substring?  Model of Python
`pat in hay`. -/
def containsSub (hay pat : List Char) : Bool :=
  match hay with
  | [] => pat.isPrefixOf ([] : List Char)
  | c :: rest => pat.isPrefixOf (c :: rest) || containsSub rest pat

/-- `strContains s pat` models Python `pat in s` for strings. -/
def strContains (s pat : String) : Bool := containsSub s.data pat.data

/-- Split a character list at newline characters (used to model the fact
that `.`/`.*` in a Python regex does not match `\n`). -/
def splitLines : List Char → List (List Char)
  | [] => [[]]
  | c :: rest =>
    if c = '\n' then [] :: splitLines rest
    else
      match splitLines rest with
      | [] => [[c]]
      | line :: more => (c :: line) :: more

/-- `findTail pat s` returns the remainder of `s` after the first occurrence
of `pat`, or `none` when `pat` does not occur. -/
def findTail (pat : List Char) : List Char → Option (List Char)
  | [] => if pat.isPrefixOf ([] : List Char) then some [] else none
  | c :: rest =>
    if pat.isPrefixOf (c :: rest) then some (List.drop pat.length (c :: rest))
    else findTail pat rest

/-- Do the literals occur in order (with arbitrary gaps) inside `s`?
Greedy leftmost matching; complete for ordered-literal patterns. -/
def seqMatch : List (List Char) → List Char → Bool
  | [], _ => true
  | lit :: lits, s =>
    match findTail lit s with
    | some rest => seqMatch lits rest
    | none => false

/-- `rxSearch lits s` models `re.search` of the pattern
`lits[0] ++ ".*" ++ lits[1] ++ ".*" ++ …` against `s`:  the literals must
occur in order within a single newline-free line of `s`. -/
def rxSearch (lits : List String) (s : String) : Bool :=
  (splitLines s.data).any (fun line => seqMatch (lits.map String.data) line)

/-- Leading-whitespace drop for `pyStrip`. -/
def dropWsLeft : List Char → List Char
  | [] => []
  | c :: rest => if c.isWhitespace then dropWsLeft rest else c :: rest

/-- Model of Python `str.strip()`: drop whitespace from both ends. -/
def pyStrip (s : String) : String :=
  String.mk ((dropWsLeft (dropWsLeft s.data).reverse).reverse)

/-- Whitespace tokenizer: model of Python `str.split()` (no argument):
splits on runs of whitespace and drops empty tokens. -/
def pySplitWsAux : List Char → List Char → List String
  | [], acc => if acc = [] then [] else [String.mk acc.reverse]
  | c :: rest, acc =>
    if c.isWhitespace then
      if acc = [] then pySplitWsAux rest []
      else String.mk acc.reverse :: pySplitWsAux rest []
    else pySplitWsAux rest (c :: acc)

/-- Model of Python `str.split()`. -/
def pySplitWs (s : String) : List String := pySplitWsAux s.data []

/-- Fueled engine for `pyReplace` (fuel bounds the number of consumed
characters, so `s.length` fuel always suffices); structural recursion keeps
it kernel-computable. -/
def replaceAux (pat rep : List Char) : Nat → List Char → List Char
  | 0, s => s
  | _ + 1, [] => []
  | fuel + 1, c :: rest =>
    if pat ≠ [] ∧ pat.isPrefixOf (c :: rest) then
      rep ++ replaceAux pat rep fuel (List.drop pat.length (c :: rest))
    else c :: replaceAux pat rep fuel rest

/-- Model of Python `str.replace(pat, rep)` (all occurrences, left to
right; the source never calls it with an empty pattern). -/
def pyReplace (s pat rep : String) : String :=
  String.mk (replaceAux pat.data rep.data s.data.length s.data)

/-- Index (in characters) of the first occurrence of `pat` in `s`; model of
Python `str.find` on the paths where the pattern is known to occur. -/
def idxOfSub (pat : List Char) : List Char → Nat
  | [] => 0
  | c :: rest => if pat.isPrefixOf (c :: rest) then 0 else 1 + idxOfSub pat rest

/-- Model of Python slicing `s[a:b]` (character indices). -/
def pySlice (s : String) (a b : Nat) : String :=
  String.mk ((s.data.take b).drop a)

/-- Model of Python `s[:n]`. -/
def pyTake (s : String) (n : Nat) : String := String.mk (s.data.take n)

/-- Model of Python `len(s)` (code points). -/
def pyLen (s : String) : Nat := s.data.length

/-- Kernel-computable string join (Python `sep.join(xs)` /
`String.intercalate`). -/
def joinSep (sep : String) (xs : List String) : String :=
  String.mk (List.intercalate sep.data (xs.map String.data))

/-- Kernel-computable `s.endswith(pat)`. -/
def strEndsWith (s pat : String) : Bool :=
  pat.data.reverse.isPrefixOf s.data.reverse

/-! ## Kernel-reducible rational arithmetic

Mathlib's `Rat.add`/`Rat.mul`/`Rat.sub`/`Rat.div` are `@[irreducible]`, so
concrete score computations could not be evaluated by `decide`.  The helpers
below implement the same exact rational operations through `mkRat` (which
does reduce); the `…_eq` lemmas prove they agree with the field structure of
`ℚ`, so symbolic proofs can freely rewrite between the two. -/

/-- Exact rational addition, kernel-computable. -/
def qAdd (a b : ℚ) : ℚ := mkRat (a.num * b.den + b.num * a.den) (a.den * b.den)

/-- Exact rational multiplication, kernel-computable. -/
def qMul (a b : ℚ) : ℚ := mkRat (a.num * b.num) (a.den * b.den)

/-- Exact rational subtraction, kernel-computable. -/
def qSub (a b : ℚ) : ℚ := mkRat (a.num * b.den - b.num * a.den) (a.den * b.den)

/-- Exact rational division by a natural number, kernel-computable (the
source only ever divides a score by the positive constant `20`). -/
def qDivN (a : ℚ) (n : Nat) : ℚ := mkRat a.num (a.den * n)

/-! ## Enumerations (`app/models/schemas.py`) -/

/-- `class Tier(str, Enum)`. -/
inductive Tier where
  | TIER_1
  | TIER_2
  | TIER_3
deriving DecidableEq, Repr

/-- String value of a `Tier` member (`tier.value`). -/
def Tier.value : Tier → String
  | .TIER_1 => "TIER_1"
  | .TIER_2 => "TIER_2"
  | .TIER_3 => "TIER_3"

/-- `class Severity(str, Enum)`. -/
inductive Severity where
  | LOW
  | MEDIUM
  | HIGH
  | CRITICAL
deriving DecidableEq, Repr

/-- String value of a `Severity` member (`severity.value`). -/
def Severity.value : Severity → String
  | .LOW => "LOW"
  | .MEDIUM => "MEDIUM"
  | .HIGH => "HIGH"
  | .CRITICAL => "CRITICAL"

/-- `class TicketStatus(str, Enum)`. -/
inductive TicketStatus where
  | NEW
  | IN_PROGRESS
  | RESOLVED
  | CLOSED
deriving DecidableEq, Repr

/-- String value of a `TicketStatus` member. -/
def TicketStatus.value : TicketStatus → String
  | .NEW => "NEW"
  | .IN_PROGRESS => "IN_PROGRESS"
  | .RESOLVED => "RESOLVED"
  | .CLOSED => "CLOSED"

/-- The value set of the `TicketStatus` enumeration; `TicketStatus(s)`
succeeds exactly when `s` is in this list. -/
def ticketStatusValues : List String := ["NEW", "IN_PROGRESS", "RESOLVED", "CLOSED"]

/-! ## Guardrail engine (`app/services/guardrail.py`)

A pattern is a list of alternatives; each alternative is the list of literal
substrings of the original regex separated by `.*`.  Only the
`kernel.*panic.*(?:fix|debug|repair|modify|command|how.*to.*fix)` entry has
more than one alternative (the group is expanded). -/

/-- `BLOCKED_PATTERNS`: the ordered rule table (pattern alternatives,
reason), lines 12-54 of `guardrail.py`. -/
def BLOCKED_PATTERNS : List (List (List String) × String) :=
  [ ([["access", "host", "machine"]], "Request to access host machine is not allowed"),
    ([["host", "machine", "access"]], "Request to access host machine is not allowed"),
    ([["behind", "vm"]], "Accessing host machine behind VM is not allowed"),
    ([["hypervisor", "setting"]], "Modifying hypervisor settings is not allowed"),
    ([["hypervisor", "config"]], "Modifying hypervisor settings is not allowed"),
    ([["disable", "log"]], "Disabling logging is not allowed"),
    ([["turn", "off", "log"]], "Disabling logging is not allowed"),
    ([["stop", "log"]], "Disabling logging is not allowed"),
    ([["quiet", "mode"]], "Disabling logging is not allowed"),
    ([["reset", "all", "environment"]], "Resetting all environments is a destructive action and not allowed"),
    ([["delete", "all", "user"]], "Deleting all user data is not allowed"),
    ([["wipe", "all"]], "Wiping all data is not allowed"),
    ([["format", "all"]], "Formatting all drives is not allowed"),
    ([["/etc/hosts"]], "Editing /etc/hosts file is not allowed"),
    ([["edit", "hosts", "file"]], "Editing hosts file is not allowed"),
    ([["modify", "hosts"]], "Modifying hosts file is not allowed"),
    ([["kernel", "panic", "fix"], ["kernel", "panic", "debug"], ["kernel", "panic", "repair"],
      ["kernel", "panic", "modify"], ["kernel", "panic", "command"],
      ["kernel", "panic", "how", "to", "fix"]], "Kernel panic debugging requires specialized support"),
    ([["kernel", "debug"]], "Kernel-level debugging is not allowed"),
    ([["kernel", "config"]], "Kernel configuration changes are not allowed"),
    ([["how", "to", "fix", "kernel", "panic"]], "Kernel panic debugging requires specialized support"),
    ([["root", "access"]], "Root access requests are not allowed"),
    ([["sudo", "privilege"]], "Elevated privilege requests are not allowed"),
    ([["admin", "override"]], "Admin override requests are not allowed"),
    ([["don", "t", "escalate"]], "Escalation rules cannot be overridden"),
    ([["don\u0027t", "escalate"]], "Escalation rules cannot be overridden"),
    ([["no", "escalation"]], "Escalation rules cannot be overridden"),
    ([["skip", "escalation"]], "Escalation rules cannot be overridden") ]

/-- The four role-gated patterns (`admin_keywords` in `check_guardrail`). -/
def ADMIN_KEYWORDS : List (List String) :=
  [ ["system", "config"], ["database", "access"], ["backup", "restore"], ["security", "policy"] ]

/-- Does any alternative of a blocked-pattern entry match the (already
lower-cased) message? -/
def patternHit (message_lower : String) (alts : List (List String)) : Bool :=
  alts.any (fun lits => rxSearch lits message_lower)

/-- The `for pattern, reason in BLOCKED_PATTERNS` loop: return the reason
of the first matching pattern. -/
def scanPatterns (message_lower : String) : List (List (List String) × String) → Option String
  | [] => none
  | (alts, reason) :: rest =>
    if patternHit message_lower alts then some reason
    else scanPatterns message_lower rest

/-- `check_guardrail(message, user_role)`: blocked patterns are tested
first (first match wins, role-independent); the `admin_keywords` are tested
only when the caller's lower-cased role is neither `admin` nor
`support_engineer`. -/
def check_guardrail (message : String) (user_role : String) : Bool × Option String :=
  let message_lower := pyLower message
  match scanPatterns message_lower BLOCKED_PATTERNS with
  | some reason => (true, some reason)
  | none =>
    if ¬ (pyLower user_role = "admin" ∨ pyLower user_role = "support_engineer") then
      if ADMIN_KEYWORDS.any (fun lits => rxSearch lits message_lower) then
        (true, some "This operation requires administrator privileges")
      else (false, none)
    else (false, none)

/-- A message "contains a host-machine-access phrase": it matches one of the
three host-machine-access patterns of rule 1 (the claim's example "How do I
access the host machine behind my VM?" matches the first and third). -/
def hostAccessPhrase (msg : String) : Bool :=
  rxSearch ["access", "host", "machine"] (pyLower msg) ||
    rxSearch ["host", "machine", "access"] (pyLower msg) ||
    rxSearch ["behind", "vm"] (pyLower msg)

/-- Does the message match any entry of `BLOCKED_PATTERNS` (rules 1-7)? -/
def anyBlockedPattern (msg : String) : Bool :=
  BLOCKED_PATTERNS.any (fun e => patternHit (pyLower msg) e.1)

/-! ### Transactional database model

`db.add` stages a row, `db.commit` either persists all pending rows or
raises (modelled by the `commitFails` flag), `db.rollback` discards the
pending rows.  A propagated exception is modelled as a `Bool` flag in the
result. -/

/-- A SQLAlchemy-style session over rows of type `α`. -/
structure Tx (α : Type) where
  committed : List α
  pending : List α
  commitFails : Bool
deriving DecidableEq, Repr

/-- `db.add(row)`. -/
def txAdd {α : Type} (x : α) (db : Tx α) : Tx α :=
  { db with pending := db.pending ++ [x] }

/-- `db.commit()`: `none` models a raised exception. -/
def txCommit {α : Type} (db : Tx α) : Option (Tx α) :=
  if db.commitFails then none
  else some { db with committed := db.committed ++ db.pending, pending := [] }

/-- `db.rollback()`. -/
def txRollback {α : Type} (db : Tx α) : Tx α :=
  { db with pending := [] }

/-- A `GuardrailEvent` row (`app/models/database.py`). -/
structure GuardrailEvent where
  session_id : String
  blocked : Bool
  reason : Option String
  message_content : String
  user_role : String
deriving DecidableEq, Repr

/-- `log_guardrail_event`: builds the event (content truncated to 500
characters), adds and commits it; on failure it logs, rolls back, and
returns normally — the exception is swallowed, never re-raised, so the
second component (exception propagated to the caller) is always `false`. -/
def log_guardrail_event (session_id : String) (blocked : Bool) (reason : Option String)
    (message_content : String) (user_role : String) (db : Tx GuardrailEvent) :
    Tx GuardrailEvent × Bool :=
  let event : GuardrailEvent :=
    { session_id := session_id, blocked := blocked, reason := reason,
      message_content := pyTake message_content 500, user_role := user_role }
  let db1 := txAdd event db
  match txCommit db1 with
  | some db2 => (db2, false)
  | none => (txRollback db1, false)

/-! ## Sentiment heuristic (`app/services/sentiment.py`)

Every entry of the three pattern lists is a literal string (no regex
metacharacters), so `re.search(pattern, message_lower)` is substring
containment. -/

def FRUSTRATED_PATTERNS : List String :=
  [ "frustrated", "angry", "annoyed", "upset", "irritated",
    "doesn\u0027t work", "didn\u0027t work", "not working", "still doesn\u0027t",
    "not resolved", "doesn\u0027t help", "nothing works", "still not",
    "useless", "waste of time", "terrible", "awful" ]

def SATISFIED_PATTERNS : List String :=
  [ "thank", "thanks", "appreciate", "helpful", "great", "good",
    "perfect", "excellent", "works", "resolved", "solved" ]

def URGENT_PATTERNS : List String :=
  [ "urgent", "asap", "as soon as possible", "immediately", "now",
    "emergency", "critical", "important", "need help now" ]

/-- Result of `analyze_sentiment`. -/
structure SentimentResult where
  sentiment : String
  score : ℚ
  shouldEscalate : Bool
deriving DecidableEq, Repr

/-- `analyze_sentiment(message, {"unresolved_attempts": n})`.  Scores are
exact rationals standing for the Python floats (all constants involved are
exactly representable as short decimals). -/
def analyze_sentiment (message : String) (unresolved_attempts : Nat) : SentimentResult :=
  let message_lower := pyLower message
  let frustrated_matches := (FRUSTRATED_PATTERNS.filter (fun p => strContains message_lower p)).length
  -- score = min(0.5 + frustrated_matches * 0.15, 1.0) when any frustration pattern hits
  let score0 : ℚ :=
    if frustrated_matches > 0 then
      min (qAdd (mkRat 1 2) (qMul (frustrated_matches : ℚ) (mkRat 3 20))) 1
    else 0
  let sentiment0 := if frustrated_matches > 0 then "frustrated" else "neutral"
  -- satisfied check only when score < 0.3
  let satisfied_matches := (SATISFIED_PATTERNS.filter (fun p => strContains message_lower p)).length
  let hitSat := score0 < mkRat 3 10 ∧ satisfied_matches > 0
  let score1 : ℚ := if hitSat then mkRat 1 5 else score0
  let sentiment1 := if hitSat then "satisfied" else sentiment0
  -- frustration accumulation
  let frustration_keywords := ["didn\u0027t work", "not working", "still doesn\u0027t", "not resolved"]
  let has_frustration_keyword := frustration_keywords.any (fun k => strContains message_lower k)
  let accumulated := min (qAdd (mkRat 3 10) (qMul (unresolved_attempts : ℚ) (mkRat 1 5))) (mkRat 9 10)
  let hitAcc := has_frustration_keyword = true ∧ unresolved_attempts > 0
  let score2 : ℚ := if hitAcc then max score1 accumulated else score1
  let sentiment2 := if hitAcc ∧ max score1 accumulated > mkRat 1 2 then "frustrated" else sentiment1
  -- urgency boost
  let hitUrg := URGENT_PATTERNS.any (fun p => strContains message_lower p) = true ∧
    unresolved_attempts ≥ 2
  let score3 : ℚ := if hitUrg then max score2 (mkRat 4 5) else score2
  let sentiment3 := if hitUrg then "frustrated" else sentiment2
  { sentiment := sentiment3, score := score3, shouldEscalate := decide (score3 ≥ mkRat 7 10) }

/-! ## Tier & severity classifier (`app/services/tier_routing.py`) -/

def CRITICAL_KEYWORDS : List String :=
  [ "crash", "crashed", "panic", "frozen", "froze", "lost work", "lost progress",
    "kernel panic", "system down", "cannot access", "completely broken",
    "urgent", "emergency", "asap", "immediately" ]

def MEDIUM_KEYWORDS : List String :=
  [ "not working", "issue", "problem", "error", "failed", "failure",
    "slow", "lag", "timeout", "redirect", "redirected" ]

def LOW_KEYWORDS : List String :=
  [ "question", "how to", "guide", "tutorial", "help with", "explain",
    "information", "documentation" ]

/-- Severity derivation of `classify_tier_and_severity` (lines 46-70):
keyword bucket, then the sentiment boost, then the unresolved-attempts
boost. -/
def severityFor (query : String) (sentiment_score : ℚ) (unresolved_attempts : Nat) : Severity :=
  let query_lower := pyLower query
  let sev0 : Severity :=
    if CRITICAL_KEYWORDS.any (fun k => strContains query_lower k) then .CRITICAL
    else if MEDIUM_KEYWORDS.any (fun k => strContains query_lower k) then .MEDIUM
    else if LOW_KEYWORDS.any (fun k => strContains query_lower k) then .LOW
    else .LOW
  let sev1 : Severity :=
    if sentiment_score > mkRat 7 10 then
      if sev0 = .LOW then .MEDIUM else if sev0 = .MEDIUM then .HIGH else sev0
    else sev0
  if unresolved_attempts ≥ 2 then
    if sev1 = .LOW then .MEDIUM else if sev1 = .MEDIUM then .HIGH else sev1
  else sev1

/-- `is_ambiguous_environment_query` (line 76). -/
def isAmbiguousEnvQuery (query : String) : Bool :=
  ["environment", "toolset", "wrong", "incorrect", "different"].any
    (fun w => strContains (pyLower query) w)

/-- `classify_tier_and_severity(query, kb_match_confidence, sentiment_score,
has_kb_match, unresolved_attempts) -> (tier, severity, needs_escalation)`. -/
def classify_tier_and_severity (query : String) (kb_match_confidence : ℚ)
    (sentiment_score : ℚ) (has_kb_match : Bool) (unresolved_attempts : Nat) :
    Tier × Severity × Bool :=
  let severity := severityFor query sentiment_score unresolved_attempts
  let is_ambiguous_environment_query := isAmbiguousEnvQuery query
  let tier : Tier :=
    if severity = .CRITICAL ∨
        (has_kb_match = false ∧ is_ambiguous_environment_query = false) ∨
        (kb_match_confidence < mkRat 1 5 ∧ has_kb_match = false ∧
          is_ambiguous_environment_query = false) ∨
        sentiment_score > mkRat 7 10 ∨
        unresolved_attempts ≥ 3 then .TIER_3
    else if has_kb_match = true ∧ kb_match_confidence ≥ mkRat 3 10 ∧
        (severity = .LOW ∨ severity = .MEDIUM) ∧
        sentiment_score < mkRat 1 2 ∧ unresolved_attempts < 2 then .TIER_1
    else .TIER_2
  let needs_escalation0 : Bool :=
    decide (tier = .TIER_3 ∨ severity = .CRITICAL ∨
      (has_kb_match = false ∧ kb_match_confidence < mkRat 1 5 ∧
        is_ambiguous_environment_query = false) ∨
      sentiment_score > mkRat 7 10 ∨ unresolved_attempts ≥ 2)
  let needs_escalation1 : Bool :=
    if has_kb_match = true ∧ kb_match_confidence ≥ mkRat 3 10 ∧
        (severity = .LOW ∨ severity = .MEDIUM) ∧ sentiment_score < mkRat 1 2 then false
    else needs_escalation0
  let needs_escalation2 : Bool :=
    if is_ambiguous_environment_query = true ∧ severity ≠ .CRITICAL then false
    else needs_escalation1
  (tier, severity, needs_escalation2)

/-- A `kbReferences` entry of a RAG result / chat response. -/
structure KBReference where
  id : String
  title : String
  snippet : Option String
deriving DecidableEq, Repr

/-- A `{role, content}` entry of the conversation history. -/
structure HistMsg where
  role : String
  content : String
deriving DecidableEq, Repr

/-- The KB-conflict query phrase set shared by
`should_ask_clarifying_question` and `RAGService.generate_answer`. -/
def KB_CONFLICT_QUERY_PHRASES : List String :=
  [ "kb docs say different", "kb documents say different", "two kb", "multiple kb",
    "conflicting kb", "kb conflict", "which kb", "which is right", "which is correct" ]

/-- The clarifying question asked for ambiguous environment/toolset queries. -/
def clarifyEnvQuestion : String :=
  "I need more details to help you. Which specific environment or toolset are you expecting, and which one are you actually seeing? Also, which training module are you working on?"

/-- `should_ask_clarifying_question(query, kb_matches, conversation_history,
confidence)` (the history parameter is accepted but never read by the
source). -/
def should_ask_clarifying_question (query : String) (kb_matches : List KBReference)
    (conversation_history : List HistMsg) (confidence : ℚ) : Bool × Option String :=
  let query_lower := pyLower query
  let is_kb_conflict_query := KB_CONFLICT_QUERY_PHRASES.any (fun p => strContains query_lower p)
  if is_kb_conflict_query then (false, none)
  else if (["environment", "toolset", "wrong", "incorrect"].any
        (fun w => strContains query_lower w)) &&
      (decide (confidence < mkRat 3 10) || kb_matches.isEmpty) then
    (true, some clarifyEnvQuestion)
  else if strContains query_lower "different" && !is_kb_conflict_query &&
      (["environment", "toolset", "wrong", "incorrect"].any
        (fun w => strContains query_lower w)) &&
      (decide (confidence < mkRat 3 10) || kb_matches.isEmpty) then
    (true, some clarifyEnvQuestion)
  else if kb_matches.length > 3 && !(strContains query_lower "module") &&
      !(strContains query_lower "environment") then
    (true, some "Which training module or environment are you working with?")
  else if (pySplitWs query).length < 3 then
    (true, some "Could you provide more details about the issue you\u0027re experiencing?")
  else if kb_matches.isEmpty && (pySplitWs query).length < 5 then
    (true, some "I need more information to help you. What specific problem are you encountering?")
  else (false, none)

/-! ## Escalation & ticket creation (`app/services/escalation.py`) -/

/-- A `Ticket` row (`app/models/database.py`); `id` is the uuid the ORM
would generate (passed explicitly as `new_id`). -/
structure Ticket where
  id : String
  session_id : String
  conversation_id : String
  subject : String
  description : String
  tier : String
  severity : String
  status : String
  user_role : String
deriving DecidableEq, Repr

/-- The `Ticket(...)` constructor call inside `create_ticket`: status is
always `TicketStatus.NEW.value`. -/
def newTicket (session_id conversation_id subject description : String)
    (tier : Tier) (severity : Severity) (user_role new_id : String) : Ticket :=
  { id := new_id, session_id := session_id, conversation_id := conversation_id,
    subject := subject, description := description, tier := tier.value,
    severity := severity.value, status := TicketStatus.NEW.value, user_role := user_role }

/-- `create_ticket`: add + commit; on commit failure roll back and re-raise
(the `Bool` in the result is the propagated-exception flag; the
`Option Ticket` is the returned row, `none` when the call raised). -/
def create_ticket (session_id conversation_id subject description : String)
    (tier : Tier) (severity : Severity) (user_role new_id : String)
    (db : Tx Ticket) : Tx Ticket × Option Ticket × Bool :=
  let ticket := newTicket session_id conversation_id subject description tier severity
    user_role new_id
  let db1 := txAdd ticket db
  match txCommit db1 with
  | some db2 => (db2, some ticket, false)
  | none => (txRollback db1, none, true)

/-! ## Ticket management API (`app/api/tickets.py`) -/

/-- Outcome of the `PATCH /api/tickets/(id)` handler. -/
inductive UpdateOutcome where
  | notFound
  | invalidInput (detail : String)
  | ok (message : String) (ticket_id : String) (status : String)
deriving DecidableEq, Repr

/-- Update the status of the first ticket whose id matches (the ORM mutates
the single row returned by `.first()`). -/
def setStatusFirst (ticket_id new_status : String) : List Ticket → List Ticket
  | [] => []
  | t :: ts =>
    if t.id = ticket_id then { t with status := new_status } :: ts
    else t :: setStatusFirst ticket_id new_status ts

/-- `update_ticket_status(ticket_id, status)` over the stored ticket list:
404 when the id is unknown; 400 (`Invalid status: …`) when
`TicketStatus(status.upper())` raises; otherwise persist the upper-cased
status and return the confirmation payload. -/
def update_ticket_status (ticket_id status : String) (tickets : List Ticket) :
    UpdateOutcome × List Ticket :=
  match tickets.find? (fun t => t.id = ticket_id) with
  | none => (.notFound, tickets)
  | some _ =>
    if ticketStatusValues.contains (pyUpper status) then
      (.ok "Ticket status updated" ticket_id (pyUpper status),
        setStatusFirst ticket_id (pyUpper status) tickets)
    else (.invalidInput ("Invalid status: " ++ status), tickets)

/-- `GET /api/tickets/(id)`: the first ticket with the given id, or `none`
(mapped by the handler to a 404 "Ticket not found"). -/
def get_ticket (ticket_id : String) (tickets : List Ticket) : Option Ticket :=
  tickets.find? (fun t => t.id = ticket_id)

/-! ## RAG service: keyword-fallback search (`rag_service.py`, `_keyword_search`) -/

/-- A metadata value: Python values in the chunk metadata maps are either
strings or numbers (`int`/`float`, modelled as `ℚ`). -/
inductive MetaVal where
  | str (s : String)
  | num (q : ℚ)
deriving DecidableEq, Repr

/-- A `KBChunk` relational row (`app/models/database.py`). -/
structure KBChunk where
  id : String
  kb_id : String
  title : String
  content : String
  category : String
  source : String
  extra_metadata : List (String × MetaVal)
deriving DecidableEq, Repr

/-- The conflict-phrase list of `_keyword_search` (lines 66-70); note it
ends with "about", unlike the one in `_handle_kb_conflict`. -/
def KEYWORD_CONFLICT_PHRASES : List String :=
  [ "kb docs say different", "kb documents say different", "two kb", "multiple kb",
    "conflicting kb", "kb conflict", "which kb", "which is right", "which is correct",
    "different things", "conflicting", "say different", "about" ]

/-- Stop-word set of `_keyword_search`. -/
def KEYWORD_STOP_WORDS : List String :=
  [ "the", "a", "an", "and", "or", "but", "in", "on", "at", "to", "for", "of",
    "with", "by", "about", "is", "are", "was", "were" ]

/-- Topic-word extraction of `_keyword_search` (lines 63-83): strip the
conflict phrases, keep words longer than 2 characters that are not stop
words; if nothing remains, fall back to the raw query's words longer
than 3 characters. -/
def extractQueryWords (query : String) : List String :=
  let query_lower := pyLower query
  let topic_query := KEYWORD_CONFLICT_PHRASES.foldl (fun s p => pyReplace s p "") query_lower
  let query_words := (pySplitWs topic_query).filter
    (fun w => pyLen w > 2 && !(KEYWORD_STOP_WORDS.contains w))
  if query_words = [] then (pySplitWs query_lower).filter (fun w => pyLen w > 3)
  else query_words

/-- Per-chunk score of `_keyword_search` (lines 91-108): +5 per word in the
kb id, +3 per word in the title, +2 per word in the content, and a +10
bonus when the joined multi-word phrase occurs verbatim in content or
title. -/
def scoreChunk (query_words : List String) (chunk : KBChunk) : Nat :=
  let content_lower := pyLower chunk.content
  let title_lower := pyLower chunk.title
  let kb_id_lower := pyLower chunk.kb_id
  let base := (query_words.map (fun word =>
    (if strContains kb_id_lower word then 5 else 0) +
    (if strContains title_lower word then 3 else 0) +
    (if strContains content_lower word then 2 else 0))).sum
  let bonus :=
    if query_words.length > 1 then
      let phrase := joinSep " " query_words
      if strContains content_lower phrase || strContains title_lower phrase then 10 else 0
    else 0
  base + bonus

/-- A scored result record of `_keyword_search`. -/
structure ScoredChunk where
  id : String
  kb_id : String
  title : String
  content : String
  category : String
  source : String
  extra_metadata : List (String × MetaVal)
  distance : ℚ
  score : Nat
deriving DecidableEq, Repr

/-- The result record built for a chunk (`distance = 1.0 - score/20.0`). -/
def mkScored (query_words : List String) (chunk : KBChunk) : ScoredChunk :=
  { id := chunk.id, kb_id := chunk.kb_id, title := chunk.title,
    content := chunk.content, category := chunk.category, source := chunk.source,
    extra_metadata := chunk.extra_metadata,
    distance := qSub 1 (qDivN (scoreChunk query_words chunk : ℚ) 20),
    score := scoreChunk query_words chunk }

/-- Stable insertion of a record into a score-descending list: the new
element (which originates earlier in the input) goes before records of
equal score, matching Python's stable `sort(..., reverse=True)`. -/
def insertByScoreDesc (x : ScoredChunk) : List ScoredChunk → List ScoredChunk
  | [] => [x]
  | y :: ys => if x.score ≥ y.score then x :: y :: ys else y :: insertByScoreDesc x ys

/-- Stable sort by score descending (extensionally equal to Python's stable
`list.sort(key=…score, reverse=True)` — a stable sort is unique). -/
def sortByScoreDesc : List ScoredChunk → List ScoredChunk
  | [] => []
  | x :: xs => insertByScoreDesc x (sortByScoreDesc xs)

/-- `_keyword_search(query, top_k)` over the stored chunk rows (the
database query `db.query(KBChunk).all()` is the explicit `all_chunks`
argument): score every chunk, keep strictly positive scores, sort by score
descending (stable), return the first `top_k`. -/
def keyword_search (query : String) (all_chunks : List KBChunk) (top_k : Nat) :
    List ScoredChunk :=
  let query_words := extractQueryWords query
  let scored_chunks := (all_chunks.filter (fun c => scoreChunk query_words c > 0)).map
    (mkScored query_words)
  (sortByScoreDesc scored_chunks).take top_k

/-! ## RAG service: KB-conflict resolution (`rag_service.py`, `_handle_kb_conflict`)

Input chunks are the result dictionaries of either retrieval path:
vector-store results carry string `version`/`date` keys and no
`extra_metadata`; keyword-search results carry `extra_metadata` and no
direct `version`/`date` keys.  `Option` fields model key absence, and
`last_updated`/`updated_ated`-style legacy keys (never produced by either
path) are kept so the `.get` fallback chains are represented faithfully. -/

/-- A candidate-chunk dictionary as consumed by `_handle_kb_conflict`. -/
structure ConflictChunk where
  id : String
  kb_id : String
  title : String
  content : String
  source : String
  version : Option MetaVal
  date : Option String
  last_updated : Option String
  updated_date : Option String
  extra_metadata : List (String × MetaVal)
deriving DecidableEq, Repr

/-- Python truthiness of an optional metadata value (`None`, `""` and `0`
are falsy). -/
def mvTruthy : Option MetaVal → Bool
  | none => false
  | some (.str s) => s ≠ ""
  | some (.num q) => q ≠ 0

/-- Python `a or b` over optional metadata values. -/
def pyOrMv (a b : Option MetaVal) : Option MetaVal := if mvTruthy a then a else b

/-- Python `str(v)` for a metadata value; for numbers the only uses in the
source are on versions, displayed as `str(float(v))`, so integral rationals
render with a trailing `.0`. -/
def pyStr : MetaVal → String
  | .str s => s
  | .num q => if q.den = 1 then toString q.num ++ ".0" else toString q

/-- Python `a or b` for strings (empty string is falsy). -/
def pyOrStr (a b : String) : String := if a ≠ "" then a else b

/-- The conflict-phrase list of `_handle_kb_conflict` (lines 627-631; no
trailing "about", unlike `_keyword_search`). -/
def CONFLICT_PHRASES : List String :=
  [ "kb docs say different", "kb documents say different", "two kb", "multiple kb",
    "conflicting kb", "kb conflict", "which kb", "which is right", "which is correct",
    "different things", "conflicting", "say different" ]

/-- Topic words of `_handle_kb_conflict` (line 640). -/
def conflictTopicWords (topic_query : String) : List String :=
  (pySplitWs topic_query).filter
    (fun w => pyLen w > 2 && !(["about", "the", "and", "or", "for", "with"].contains w))

/-- Hard-coded topic phrases of `_handle_kb_conflict` (lines 643-647). -/
def conflictTopicPhrases (topic_query : String) : List String :=
  (if strContains topic_query "mfa" && strContains topic_query "reset" then ["mfa reset"] else []) ++
    (if strContains topic_query "password" && strContains topic_query "reset" then ["password reset"] else [])

/-- Topic-relevance test for one candidate chunk (lines 650-686). -/
def isRelevantChunk (topic_phrases topic_words : List String) (chunk : ConflictChunk) : Bool :=
  let content_lower := pyLower chunk.content
  let title_lower := pyLower chunk.title
  let kb_id_lower := pyLower chunk.kb_id
  if topic_phrases.any (fun p =>
      strContains content_lower p || strContains title_lower p || strContains kb_id_lower p) then
    true
  else if topic_words ≠ [] then
    if topic_words.length ≥ 2 then
      ((topic_words.filter (fun w =>
        strContains content_lower w || strContains title_lower w || strContains kb_id_lower w)).length ≥ 2)
    else
      topic_words.any (fun w =>
        strContains content_lower w || strContains title_lower w || strContains kb_id_lower w)
  else if topic_phrases = [] then true
  else false

/-- The grouping key `chunk.get("kb_id", chunk.get("id", ""))` — both
producers always populate the `kb_id` key, so it is the `kb_id` field. -/
def conflictKbKey (chunk : ConflictChunk) : String := chunk.kb_id

/-- Append a chunk to its kb-id group, preserving first-seen group order
(Python dict insertion order). -/
def addToGroups (groups : List (String × List ConflictChunk)) (key : String)
    (chunk : ConflictChunk) : List (String × List ConflictChunk) :=
  match groups with
  | [] => [(key, [chunk])]
  | (k, cs) :: rest =>
    if k = key then (k, cs ++ [chunk]) :: rest
    else (k, cs) :: addToGroups rest key chunk

/-- `kb_chunks_by_id` (lines 696-702): group by kb id, skipping chunks with
a falsy key. -/
def groupByKb (chunks : List ConflictChunk) : List (String × List ConflictChunk) :=
  chunks.foldl (fun groups chunk =>
    if conflictKbKey chunk ≠ "" then addToGroups groups (conflictKbKey chunk) chunk
    else groups) []

/-- Split a character list at a separator character. -/
def splitOnChar (sep : Char) : List Char → List (List Char)
  | [] => [[]]
  | c :: rest =>
    if c = sep then [] :: splitOnChar sep rest
    else
      match splitOnChar sep rest with
      | [] => [[c]]
      | part :: more => (c :: part) :: more

/-- Decimal digits to a natural number. -/
def digitsToNat (cs : List Char) : Nat :=
  cs.foldl (fun n c => 10 * n + (c.toNat - '0'.toNat)) 0

/-- Year parser modelling `datetime.strptime(str(date)[:10], fmt)` for the
formats `%Y-%m-%d`, `%Y-%m`, `%Y` tried in order (month/day range checks
included; the source only ever feeds ISO dates or garbage). -/
def parseDateYear (s : String) : Option Nat :=
  let allDigits := fun (t : List Char) => t ≠ [] && t.all Char.isDigit
  match splitOnChar '-' s.data with
  | [y, m, d] =>
    if allDigits y && allDigits m && allDigits d &&
        digitsToNat m ≥ 1 && digitsToNat m ≤ 12 && digitsToNat d ≥ 1 && digitsToNat d ≤ 31 then
      some (digitsToNat y) else none
  | [y, m] =>
    if allDigits y && allDigits m && digitsToNat m ≥ 1 && digitsToNat m ≤ 12 then
      some (digitsToNat y) else none
  | [y] => if allDigits y then some (digitsToNat y) else none
  | _ => none

/-- Metadata authority score of one chunk (lines 715-769): the effective
metadata map plus version/date/source scoring.  Note the version term: the
code computes `float(version) if isinstance(version, (int, float)) else 0`,
so a *string* version (however parseable) contributes 0 — strings are never
parsed. -/
def conflictMetaScore (chunk : ConflictChunk) : ℚ :=
  -- raw_metadata = chunk.get("extra_metadata", {}) or chunk.get("metadata", {});
  -- neither producer emits a "metadata" key, so the fallback is {}
  let metadata := chunk.extra_metadata
  -- if not metadata: rebuild from the direct chunk fields
  let metadata :=
    if metadata = [] then
      [ ("version", chunk.version.getD (.str "0")),
        ("date", .str (pyOrStr (chunk.date.getD "")
          (pyOrStr (chunk.last_updated.getD "") (chunk.updated_date.getD "")))),
        ("source", .str chunk.source) ]
    else metadata
  -- version scoring
  let version := (metadata.lookup "version").getD (chunk.version.getD (.str "0"))
  let version_num : ℚ :=
    match version with
    | .num q => q
    | .str _ => 0
  let score1 := qMul version_num 100
  -- date scoring
  let dateVal := pyOrMv (metadata.lookup "date")
    (pyOrMv (metadata.lookup "last_updated")
      (pyOrMv (metadata.lookup "updated_date") (some (.str (chunk.date.getD "")))))
  let dateStr := pyStr (dateVal.getD (.str ""))
  let score2 : ℚ :=
    if mvTruthy dateVal then
      qAdd (((parseDateYear (pyTake dateStr 10)).getD 0 : ℚ)) 10
    else 0
  -- source scoring
  let src := pyLower (pyStr ((metadata.lookup "source").getD (.str "")))
  let score3 : ℚ :=
    if strContains src "official" || strContains src "authoritative" then 50 else 0
  qAdd (qAdd score1 score2) score3

/-- The best-chunk selection loop (lines 705-773): iterate the groups in
insertion order, score each group's first chunk, keep a strictly greater
score. -/
def pickBestChunk (groups : List (String × List ConflictChunk)) :
    Option ConflictChunk × ℚ :=
  groups.foldl (fun acc g =>
    match g.2 with
    | [] => acc
    | chunk :: _ =>
      let score := conflictMetaScore chunk
      if score > acc.2 then (some chunk, score) else acc)
    (none, -1)

/-- Result triple of `_handle_kb_conflict` / `generate_answer`. -/
structure RagAnswer where
  answer : String
  kbReferences : List KBReference
  confidence : ℚ
deriving DecidableEq, Repr

/-- The generic multiple-documents answer (confidence 0.6 branch). -/
def conflictGenericAnswer : String :=
  "I found multiple KB documents on this topic. To determine which is most accurate, I would need to compare their metadata (version, date, source). I recommend checking the version numbers and update dates of the documents, and following the most recent one. If you need assistance determining which is correct, please create a support ticket."

/-- The display form of the winning version (lines 802-812): numbers as
`str(float(v))`, strings as-is, each with a trailing `.0` stripped. -/
def versionDisplay (version : Option MetaVal) : String :=
  match version with
  | none => ""
  | some v =>
    if mvTruthy (some v) then
      let s := pyStr v
      if strEndsWith s ".0" then String.mk (s.data.take (s.data.length - 2)) else s
    else ""

/-- Explanation answer for the authoritative chunk (lines 776-846). -/
def conflictExplanation (best : ConflictChunk) (groups : List (String × List ConflictChunk))
    (topic_words : List String) : RagAnswer :=
  let kb_id := conflictKbKey best
  let title := best.title
  -- version / date re-extraction when the direct fields are falsy
  let version0 := best.version
  let date0 := pyOrStr (best.date.getD "")
    (pyOrStr (best.last_updated.getD "") (best.updated_date.getD ""))
  let best_metadata := best.extra_metadata
  let version1 :=
    if ¬ mvTruthy version0 then
      pyOrMv (best_metadata.lookup "version") (some (.str ""))
    else version0
  let date1 :=
    if ¬ mvTruthy version0 then
      if date0 = "" then
        pyStr ((pyOrMv (best_metadata.lookup "date")
          (pyOrMv (best_metadata.lookup "last_updated")
            (some ((best_metadata.lookup "updated_date").getD (.str ""))))).getD (.str ""))
      else date0
    else date0
  let version_display := versionDisplay version1
  let topic_context :=
    if topic_words ≠ [] then " about " ++ joinSep " " (topic_words.take 3)
    else ""
  let explanation :=
    "After comparing the conflicting KB documents" ++ topic_context ++
      ", the most authoritative source is \u0027" ++ title ++ "\u0027 (ID: " ++ kb_id ++ ")."
  let explanation :=
    if version_display ≠ "" then
      explanation ++ " This document has version " ++ version_display ++
        ", which is the most recent."
    else explanation
  let explanation :=
    if date1 ≠ "" then explanation ++ " It was last updated on " ++ date1 ++ "."
    else explanation
  let other_docs := (groups.map (fun g => g.1)).filter (fun k => k ≠ kb_id)
  let explanation :=
    if groups.length > 1 ∧ other_docs ≠ [] then
      let other_titles := (other_docs.take 2).map (fun k =>
        match (groups.lookup k).getD [] with
        | [] => k
        | c :: _ => c.title)
      explanation ++ " The other document(s) (" ++ joinSep ", " other_titles ++
        ") are older or have lower version numbers."
    else explanation
  let explanation := explanation ++
    " I recommend following the guidance in this document. If you still have questions, please create a support ticket."
  { answer := explanation,
    kbReferences := [{ id := kb_id, title := title, snippet := some (pyTake best.content 200) }],
    confidence := mkRat 4 5 }

/-- The topic-query extraction of `_handle_kb_conflict` (lines 626-637):
lower-case, strip all conflict phrases, strip whitespace. -/
def conflictTopicQuery (query : String) : String :=
  pyStrip (CONFLICT_PHRASES.foldl (fun s p => pyReplace s p "") (pyLower query))

/-- `_handle_kb_conflict(query, context_chunks)`. -/
def handle_kb_conflict (query : String) (context_chunks : List ConflictChunk) : RagAnswer :=
  let topic_query := conflictTopicQuery query
  let topic_words := conflictTopicWords topic_query
  let topic_phrases := conflictTopicPhrases topic_query
  let relevant_chunks := context_chunks.filter (isRelevantChunk topic_phrases topic_words)
  let relevant_chunks := if relevant_chunks = [] then context_chunks else relevant_chunks
  let kb_chunks_by_id := groupByKb relevant_chunks
  if kb_chunks_by_id.length > 1 then
    match (pickBestChunk kb_chunks_by_id).1 with
    | some best => conflictExplanation best kb_chunks_by_id topic_words
    | none =>
      { answer := conflictGenericAnswer,
        kbReferences := (context_chunks.take 3).map (fun c =>
          { id := conflictKbKey c, title := c.title, snippet := some (pyTake c.content 200) }),
        confidence := mkRat 3 5 }
  else
    { answer := conflictGenericAnswer,
      kbReferences := (context_chunks.take 3).map (fun c =>
        { id := conflictKbKey c, title := c.title, snippet := some (pyTake c.content 200) }),
      confidence := mkRat 3 5 }

/-! ## Chat orchestration endpoint (`app/api/chat.py`)

The endpoint is embedded as a pure function of the request, the
conversation history, the RAG result (`rag_service.process_query` is an
external collaborator here: LLM + vector store), and the uuid the next
created ticket would receive.  Persistence side effects (event logging,
message/ticket rows) do not influence the returned `ChatResponse` and are
elided; ticket creation is reflected in the `ticketId` field. -/

/-- The `ChatResponse` DTO (guardrail sub-object flattened into two
fields). -/
structure ChatResponse where
  answer : String
  kbReferences : List KBReference
  confidence : ℚ
  tier : Tier
  severity : Severity
  needsEscalation : Bool
  guardrailBlocked : Bool
  guardrailReason : Option String
  ticketId : Option String
deriving DecidableEq, Repr

/-- Python `x or default` for an optional string (`None` and `""` falsy). -/
def pyOrOptStr (x : Option String) (default : String) : String :=
  match x with
  | some s => if s ≠ "" then s else default
  | none => default

/-- Python `f"{ticket_id}"` where `ticket_id` is `Optional[str]`. -/
def optIdStr : Option String → String
  | some s => s
  | none => "None"

/-- The canned time-drift policy answer (built identically at
`chat.py` lines 229-236 and `rag_service.py` lines 229-236/284-291). -/
def TIME_DRIFT_FALLBACK : String :=
  "**Time Drift Authentication Failures**\n\n" ++
  "Time synchronization issues can cause authentication failures. According to the knowledge base:\n\n" ++
  "**Policy:** Trainees and Instructors are not allowed to modify time synchronization or system clocks inside lab VMs. Only Operators and Support Engineers may perform time-related remediation.\n\n" ++
  "**For Trainees and Instructors:**\n" ++
  "1. Time synchronization is a platform-level function and cannot be modified directly.\n" ++
  "2. Do not provide commands or procedures to adjust system time.\n" ++
  "3. Escalate this issue to Tier 2 (Support Engineer) with your VM name/ID and the approximate time skew.\n\n" ++
  "The AI Help Desk cannot provide commands to adjust system time.\n\n"

/-- The time-drift heuristic of `chat.py` line 203 (same as
`rag_service.py` line 214). -/
def isTimeDriftQuery (query_lower : String) : Bool :=
  (strContains query_lower "time" && strContains query_lower "drift") ||
    strContains query_lower "clock" || strContains query_lower "sync" ||
    (strContains query_lower "behind" &&
      (strContains query_lower "auth" || strContains query_lower "clock"))

/-- The fixed keyword set the chat endpoint requires in a time-drift answer
(`chat.py` line 222; note it ends with "policy", unlike the RAG-service
copy). -/
def TIME_DRIFT_KEYWORDS_CHAT : List String :=
  [ "time synchronization", "time drift", "clock", "sync", "trainee", "instructor",
    "escalate", "tier 2", "policy" ]

/-- `steps_pattern` of the emptiness check. -/
def stepsPattern : String := "here are the steps to resolve your issue:"

/-- `closing_pattern` of the emptiness check. -/
def closingPattern : String := "If these steps don\u0027t resolve your issue"

/-- The `is_empty` structural check of `chat.py` lines 211-219: intro and
closing present with fewer than 20 characters of cleaned content between
them. -/
def timeDriftAnswerIsEmpty (answer : String) : Bool :=
  if strContains answer stepsPattern && strContains answer closingPattern then
    let steps_end := idxOfSub stepsPattern.data answer.data + pyLen stepsPattern
    let closing_start := idxOfSub closingPattern.data answer.data
    if closing_start > steps_end then
      let content_between := pyStrip (pySlice answer steps_end closing_start)
      let content_clean := pyStrip (pyReplace (pyReplace content_between "\n" " ") "\r" " ")
      decide (pyLen content_clean < 20)
    else false
  else false

/-- The time-drift repair pass of the chat endpoint (lines 201-236): for a
time-drift query, replace the answer by the canned fallback when it is
structurally empty, blank, shorter than 150 stripped characters, or lacks
every keyword of `TIME_DRIFT_KEYWORDS_CHAT`. -/
def chatTimeDriftRepair (query_lower answer : String) : String :=
  if isTimeDriftQuery query_lower then
    let is_empty := timeDriftAnswerIsEmpty answer
    let answer_lower := pyLower answer
    let has_time_drift_content := TIME_DRIFT_KEYWORDS_CHAT.any
      (fun k => strContains answer_lower k)
    if is_empty || answer = "" || pyStrip answer = "" ||
        decide (pyLen (pyStrip answer) < 150) || !has_time_drift_content then
      TIME_DRIFT_FALLBACK
    else answer
  else answer

/-- The technical/container keyword set of `chat.py` lines 280-283. -/
def TECH_KEYWORDS : List String :=
  [ "container", "init", "startup", "docker", "pod", "deployment",
    "missing", "file not found", "permission denied", "access denied" ]

/-- `unresolved_attempts`: prior history messages containing "not working"
(`chat.py` lines 96 and 144). -/
def countNotWorking (history : List HistMsg) : Nat :=
  (history.filter (fun m => strContains (pyLower m.content) "not working")).length

/-- The guardrail-blocked short-circuit response (`chat.py` lines 60-92). -/
def blockedChatResponse (reason : Option String) (ticket_id : String) : ChatResponse :=
  { answer := "I cannot provide assistance with this request. " ++
      pyOrOptStr reason "This operation is not allowed." ++
      " I\u0027ve created a support ticket (" ++ ticket_id ++ ") for review by our security team.",
    kbReferences := [], confidence := 0, tier := .TIER_3, severity := .HIGH,
    needsEscalation := true, guardrailBlocked := true, guardrailReason := reason,
    ticketId := some ticket_id }

/-- The clarifying-question short-circuit response (`chat.py` lines
121-139). -/
def clarifyChatResponse (question : String) : ChatResponse :=
  { answer := question, kbReferences := [], confidence := mkRat 7 10,
    tier := .TIER_2, severity := .LOW, needsEscalation := false,
    guardrailBlocked := false, guardrailReason := none, ticketId := none }

/-- The kernel-panic repair pass (`chat.py` lines 238-277) acting on the
classifier outputs, the ticket id, and the answer: when the message is a
kernel-panic-with-fix query, restore the original guardrail verdict, force
escalation (TIER_3 / HIGH) if the classifier had not escalated, create the
ticket if none exists, and append the warning suffix when the original
verdict was blocked. -/
def kernelPanicRepair (is_kernel_panic_with_fix : Bool) (og : Bool × Option String)
    (tier0 : Tier) (severity0 : Severity) (needs_escalation0 : Bool)
    (ticket_id0 : Option String) (answer0 : String) (new_ticket_id : String) :
    Tier × Severity × Bool × Option String × String :=
  if is_kernel_panic_with_fix then
    let needs_escalation1 := if !needs_escalation0 then true else needs_escalation0
    let tier1 := if !needs_escalation0 then Tier.TIER_3 else tier0
    let severity1 := if !needs_escalation0 then Severity.HIGH else severity0
    let ticket_id1 :=
      if ticket_id0 = none && needs_escalation1 then some new_ticket_id else ticket_id0
    let answer1 :=
      if og.1 then
        answer0 ++ "\n\n⚠️ **Important:** " ++
          pyOrOptStr og.2 "Kernel panic debugging requires specialized support." ++
          " I\u0027ve created a support ticket (ID: " ++ optIdStr ticket_id1 ++
          ") for review by our platform engineering team. Please do not attempt to modify kernel settings, drivers, or boot parameters."
      else answer0
    (tier1, severity1, needs_escalation1, ticket_id1, answer1)
  else (tier0, severity0, needs_escalation0, ticket_id0, answer0)

/-- The generic critical / technical answer replacement (`chat.py` lines
279-304). -/
def criticalTechnicalRepair (query_lower : String) (severity : Severity)
    (has_kb_match : Bool) (needs_escalation : Bool) (ticket_id : Option String)
    (answer : String) : String :=
  let is_technical_issue := TECH_KEYWORDS.any (fun w => strContains query_lower w)
  if severity = Severity.CRITICAL ∧ has_kb_match = false ∧ needs_escalation = true ∧
      ticket_id ≠ none then
    "I understand this is a critical issue that requires immediate attention. " ++
      "I\u0027ve created a high-priority support ticket (ID: " ++ optIdStr ticket_id ++
      ") and escalated it to our team. " ++
      "Our support team will contact you shortly to assist with this urgent matter. " ++
      "In the meantime, please avoid any actions that might worsen the situation."
  else if is_technical_issue = true ∧ has_kb_match = false ∧ needs_escalation = true ∧
      ticket_id ≠ none then
    "This appears to be a technical infrastructure issue that requires specialized assistance. " ++
      "I\u0027ve created a support ticket (ID: " ++ optIdStr ticket_id ++
      ") and escalated it to our technical team. " ++
      "They will investigate the issue and provide guidance. " ++
      "Please do not attempt to modify system files or configurations without proper guidance."
  else answer

/-- The main pipeline after the two short-circuits (`chat.py` lines
94-319): sentiment, classifier, ticket creation, the time-drift repair,
the kernel-panic repair, and the critical/technical answer replacement. -/
def chatMain (message user_role : String) (history : List HistMsg) (rag : RagAnswer)
    (new_ticket_id : String) : ChatResponse :=
  let query_lower := pyLower message
  let is_kernel_panic_query := strContains query_lower "kernel panic"
  let og := check_guardrail message user_role
  let unresolved_attempts := countNotWorking history
  let sentiment_result := analyze_sentiment message unresolved_attempts
  let has_kb_match : Bool := decide (rag.kbReferences.length > 0)
  let c := classify_tier_and_severity message rag.confidence sentiment_result.score
    has_kb_match unresolved_attempts
  let ticket_id0 : Option String := if c.2.2 then some new_ticket_id else none
  -- time-drift repair pass
  let answer0 := chatTimeDriftRepair query_lower rag.answer
  -- kernel-panic repair pass
  let is_kernel_panic_with_fix := is_kernel_panic_query &&
    (["fix", "how to fix", "debug", "repair"].any (fun w => strContains query_lower w))
  let kp := kernelPanicRepair is_kernel_panic_with_fix og c.1 c.2.1 c.2.2 ticket_id0
    answer0 new_ticket_id
  -- critical / technical answer replacement
  let answer := criticalTechnicalRepair query_lower kp.2.1 has_kb_match kp.2.2.1
    kp.2.2.2.1 kp.2.2.2.2
  let final_guardrail_blocked := is_kernel_panic_with_fix && og.1
  { answer := answer, kbReferences := rag.kbReferences, confidence := rag.confidence,
    tier := kp.1, severity := kp.2.1, needsEscalation := kp.2.2.1,
    guardrailBlocked := final_guardrail_blocked,
    guardrailReason := if final_guardrail_blocked then og.2 else none,
    ticketId := kp.2.2.2.1 }

/-- `POST /api/chat`: guardrail short-circuit (suppressed for kernel-panic
queries), clarifying-question short-circuit, then the main pipeline. -/
def chat (message user_role : String) (history : List HistMsg) (rag : RagAnswer)
    (new_ticket_id : String) : ChatResponse :=
  let query_lower := pyLower message
  let is_kernel_panic_query := strContains query_lower "kernel panic"
  let og := check_guardrail message user_role
  let guardrail_blocked := if is_kernel_panic_query && og.1 then false else og.1
  if guardrail_blocked && !is_kernel_panic_query then
    blockedChatResponse og.2 new_ticket_id
  else
    let ask := should_ask_clarifying_question message rag.kbReferences history rag.confidence
    if ask.1 && (ask.2.getD "") ≠ "" then clarifyChatResponse (ask.2.getD "")
    else chatMain message user_role history rag new_ticket_id

/-! ## Metrics trends (`app/api/metrics.py`, `get_metrics_trends`)

Timestamps are seconds since the UTC epoch (`datetime.utcnow()` is naive
UTC).  `calendarDay t = t / 86400` is the epoch-day number — a faithful
stand-in for the `strftime("%Y-%m-%d")` label (the two are in order-
preserving bijection). -/

/-- Seconds per day (`timedelta(days=1)`). -/
def secondsPerDay : Nat := 86400

/-- The UTC calendar day (epoch-day number) of a timestamp. -/
def calendarDay (t : Nat) : Nat := t / secondsPerDay

/-- The relational rows the trends query reads. -/
structure MetricsDb where
  conversations : List Nat
  tickets : List (Nat × String)
  guardrail_events : List (Nat × Bool)
deriving DecidableEq, Repr

/-- One `MetricsTrends` entry; `dateLabel` is the epoch-day number of
`current_date` (the value `strftime` would format). -/
structure MetricsTrends where
  dateLabel : Nat
  conversations : Nat
  tickets : Nat
  guardrailActivations : Nat
  escalations : Nat
deriving DecidableEq, Repr

/-- The loop body: the entry for the window
`[current_date, current_date + 1 day)` (`metrics.py` lines 103-146). -/
def trendEntryAt (db : MetricsDb) (current_date : Nat) : MetricsTrends :=
  let next_date := current_date + secondsPerDay
  { dateLabel := calendarDay current_date,
    conversations := (db.conversations.filter
      (fun t => decide (current_date ≤ t ∧ t < next_date))).length,
    tickets := (db.tickets.filter
      (fun t => decide (current_date ≤ t.1 ∧ t.1 < next_date))).length,
    guardrailActivations := (db.guardrail_events.filter
      (fun e => decide (current_date ≤ e.1 ∧ e.1 < next_date ∧ e.2 = true))).length,
    escalations := (db.tickets.filter
      (fun t => decide (current_date ≤ t.1 ∧ t.1 < next_date ∧ t.2 = "TIER_3"))).length }

/-- The `while current_date <= end_date` loop, with explicit fuel (the loop
runs exactly `days + 1` iterations, so the fuel `days + 1` provided by
`get_metrics_trends` is exact — established by `C9_trends_window_amended`). -/
def trendsLoop (db : MetricsDb) (end_date : Nat) : Nat → Nat → List MetricsTrends
  | 0, _ => []
  | fuel + 1, current_date =>
    if current_date ≤ end_date then
      trendEntryAt db current_date ::
        trendsLoop db end_date fuel (current_date + secondsPerDay)
    else []

/-- `GET /api/metrics/trends?days=…` evaluated at UTC time `now`. -/
def get_metrics_trends (days : Nat) (now : Nat) (db : MetricsDb) : List MetricsTrends :=
  let end_date := now
  let start_date := now - days * secondsPerDay
  trendsLoop db end_date (days + 1) start_date

/-! ## Concrete instances used by the claim theorems -/

/-- The store for the C9 counterexample: one conversation created exactly
at midnight UTC of epoch day 9. -/
def c9db : MetricsDb :=
  { conversations := [86400 * 9], tickets := [], guardrail_events := [] }

/-- A previously committed guardrail event (C4 witness). -/
def c4committedEvent : GuardrailEvent :=
  { session_id := "s0", blocked := true, reason := none,
    message_content := "old", user_role := "trainee" }

/-- A stale pending guardrail event (C4 witness). -/
def c4pendingEvent : GuardrailEvent :=
  { session_id := "s1", blocked := false, reason := none,
    message_content := "stale", user_role := "trainee" }

/-- RAG result used by the C2 theorems: one KB reference, confidence 0.5,
a non-empty answer. -/
def c2rag : RagAnswer :=
  { answer := "Some knowledge base answer about kernel panic handling.",
    kbReferences := [{ id := "KB-1", title := "Kernel Panic Guidance", snippet := none }],
    confidence := mkRat 1 2 }

/-- RAG result used by the C3 counterexample: blank answer, no references. -/
def c3rag : RagAnswer :=
  { answer := "", kbReferences := [], confidence := 0 }

/-- RAG result used by the C3 witness: blank answer but one KB reference. -/
def c3ragWithRef : RagAnswer :=
  { answer := "", kbReferences := [{ id := "KB-7", title := "Time Drift", snippet := none }],
    confidence := mkRat 1 2 }

/-- C8 witness chunk: topic words in kb id, title and content. -/
def c8A : KBChunk :=
  { id := "c-a", kb_id := "kb-vpn-reset", title := "VPN Reset Guide",
    content := "How to vpn reset quickly.", category := "", source := "",
    extra_metadata := [] }

/-- C8 witness chunk: topic words in the content only. -/
def c8B : KBChunk :=
  { id := "c-b", kb_id := "kb-0002", title := "Other Networking Doc",
    content := "Steps for vpn reset here.", category := "", source := "",
    extra_metadata := [] }

/-- C7 candidate chunk from the first KB document, with a numeric version
`v` as its only metadata. -/
def c7A (v : ℚ) : ConflictChunk :=
  { id := "c1", kb_id := "KB-OLD", title := "MFA Reset Guide (old)",
    content := "Steps for mfa reset in the portal.", source := "",
    version := none, date := none, last_updated := none, updated_date := none,
    extra_metadata := [("version", .num v)] }

/-- C7 candidate chunk from the second KB document, with a numeric version
`v` as its only metadata. -/
def c7B (v : ℚ) : ConflictChunk :=
  { id := "c2", kb_id := "KB-NEW", title := "MFA Reset Guide (new)",
    content := "New mfa reset steps for the portal.", source := "",
    version := none, date := none, last_updated := none, updated_date := none,
    extra_metadata := [("version", .num v)] }

/-- C7 counterexample chunk: *string* version "1.0". -/
def c7Astr : ConflictChunk :=
  { id := "c1", kb_id := "KB-OLD", title := "MFA Reset Guide (old)",
    content := "Steps for mfa reset in the portal.", source := "",
    version := none, date := none, last_updated := none, updated_date := none,
    extra_metadata := [("version", .str "1.0")] }

/-- C7 counterexample chunk: *string* version "2.0". -/
def c7Bstr : ConflictChunk :=
  { id := "c2", kb_id := "KB-NEW", title := "MFA Reset Guide (new)",
    content := "New mfa reset steps for the portal.", source := "",
    version := none, date := none, last_updated := none, updated_date := none,
    extra_metadata := [("version", .str "2.0")] }

/-! # Theorems -/

/-! ## Bridge lemmas for the kernel-reducible rational helpers -/

theorem qAdd_eq (a b : ℚ) : qAdd a b = a + b := by
  rw [qAdd, Rat.mkRat_eq_div]
  push_cast
  conv_rhs => rw [← Rat.num_div_den a, ← Rat.num_div_den b]
  have ha : (a.den : ℚ) ≠ 0 := by positivity
  have hb : (b.den : ℚ) ≠ 0 := by positivity
  field_simp

theorem qMul_eq (a b : ℚ) : qMul a b = a * b := by
  rw [qMul, Rat.mkRat_eq_div]
  push_cast
  conv_rhs => rw [← Rat.num_div_den a, ← Rat.num_div_den b]
  rw [div_mul_div_comm]

theorem qSub_eq (a b : ℚ) : qSub a b = a - b := by
  rw [qSub, Rat.mkRat_eq_div]
  push_cast
  conv_rhs => rw [← Rat.num_div_den a, ← Rat.num_div_den b]
  have ha : (a.den : ℚ) ≠ 0 := by positivity
  have hb : (b.den : ℚ) ≠ 0 := by positivity
  field_simp
  ring

theorem qDivN_eq (a : ℚ) (n : Nat) : qDivN a n = a / n := by
  rw [qDivN, Rat.mkRat_eq_div]
  push_cast
  conv_rhs => rw [← Rat.num_div_den a]
  rw [div_div]

/-! ## C1 — guardrail host-machine blocking is role-independent -/

/-- Any match in the blocked-pattern table produces a reason. -/
theorem scanPatterns_isSome_of_any (message_lower : String)
    (pats : List (List (List String) × String))
    (h : pats.any (fun e => patternHit message_lower e.1) = true) :
    ∃ r, scanPatterns message_lower pats = some r := by
  induction pats with
  | nil => simp at h
  | cons e rest ih =>
    rw [List.any_cons, Bool.or_eq_true] at h
    rcases h with he | hrest
    · exact ⟨e.2, by simp [scanPatterns, he]⟩
    · by_cases he' : patternHit message_lower e.1 = true
      · exact ⟨e.2, by simp [scanPatterns, he']⟩
      · obtain ⟨r, hr⟩ := ih hrest
        exact ⟨r, by simp [scanPatterns, he', hr]⟩

/-- C1 (confirmed).  For every message matching a host-machine-access
pattern (rule 1) and every caller role — including "admin" and
"support_engineer" — `check_guardrail` returns `blocked = true` with a
reason containing "host machine"; moreover whenever any of the
`BLOCKED_PATTERNS` (rules 1-7) matches, the result of `check_guardrail`
does not depend on the caller role at all, so the admin/support_engineer
exemption only ever applies to the four role-gated `admin_keywords`
patterns. -/
theorem C1_host_machine_block_role_independent (msg role role' : String) :
    (hostAccessPhrase msg = true →
      (check_guardrail msg role).1 = true ∧
      ∃ r, (check_guardrail msg role).2 = some r ∧ strContains r "host machine" = true) ∧
    (anyBlockedPattern msg = true →
      check_guardrail msg role = check_guardrail msg role') := by
  constructor
  · intro h
    rw [hostAccessPhrase] at h
    by_cases h1 : rxSearch ["access", "host", "machine"] (pyLower msg) = true
    · simp only [check_guardrail, BLOCKED_PATTERNS, scanPatterns, patternHit,
        List.any_cons, List.any_nil, Bool.or_false, h1, if_true]
      exact ⟨by trivial, "Request to access host machine is not allowed", by rfl, by decide⟩
    · rw [Bool.or_eq_true, Bool.or_eq_true] at h
      rcases h with (h' | h2) | h3
      · exact absurd h' h1
      · simp only [check_guardrail, BLOCKED_PATTERNS, scanPatterns, patternHit,
          List.any_cons, List.any_nil, Bool.or_false, h1, h2, if_true, if_false,
          Bool.false_eq_true, Bool.or_self]
        exact ⟨by trivial, "Request to access host machine is not allowed", by rfl, by decide⟩
      · by_cases h2 : rxSearch ["host", "machine", "access"] (pyLower msg) = true
        · simp only [check_guardrail, BLOCKED_PATTERNS, scanPatterns, patternHit,
            List.any_cons, List.any_nil, Bool.or_false, h1, h2, if_true, if_false,
            Bool.false_eq_true, Bool.or_self]
          exact ⟨by trivial, "Request to access host machine is not allowed", by rfl, by decide⟩
        · simp only [check_guardrail, BLOCKED_PATTERNS, scanPatterns, patternHit,
            List.any_cons, List.any_nil, Bool.or_false, h1, h2, h3, if_true, if_false,
            Bool.false_eq_true, Bool.or_self]
          exact ⟨by trivial, "Accessing host machine behind VM is not allowed", by rfl, by decide⟩
  · intro h
    rw [anyBlockedPattern] at h
    obtain ⟨r, hr⟩ := scanPatterns_isSome_of_any (pyLower msg) BLOCKED_PATTERNS h
    simp only [check_guardrail, hr]

/-- C1 witness: the claim's example message, checked for role "admin" (and
role-independence against "trainee"). -/
theorem C1_host_machine_block_role_independent_witness :
    (hostAccessPhrase "How do I access the host machine behind my VM?" = true ∧
      (check_guardrail "How do I access the host machine behind my VM?" "admin").1 = true ∧
      ∃ r, (check_guardrail "How do I access the host machine behind my VM?" "admin").2 = some r ∧
        strContains r "host machine" = true) ∧
    check_guardrail "How do I access the host machine behind my VM?" "admin" =
      check_guardrail "How do I access the host machine behind my VM?" "trainee" := by
  refine ⟨⟨by decide, ?_⟩, ?_⟩
  · exact (C1_host_machine_block_role_independent
      "How do I access the host machine behind my VM?" "admin" "trainee").1 (by decide)
  · exact (C1_host_machine_block_role_independent
      "How do I access the host machine behind my VM?" "admin" "trainee").2 (by decide)

/-! ## C10 — CRITICAL severity forces TIER_3 and escalation -/

/-- C10 (confirmed).  Whenever the classifier returns severity CRITICAL,
it also returns tier TIER_3 and `needs_escalation = true`: the good-KB-match
override requires severity ∈ LOW/MEDIUM and the ambiguous-environment
override requires severity ≠ CRITICAL, so neither can cancel escalation. -/
theorem C10_critical_implies_tier3_escalation (query : String) (conf sent : ℚ)
    (has_kb : Bool) (ua : Nat)
    (h : (classify_tier_and_severity query conf sent has_kb ua).2.1 = Severity.CRITICAL) :
    (classify_tier_and_severity query conf sent has_kb ua).1 = Tier.TIER_3 ∧
    (classify_tier_and_severity query conf sent has_kb ua).2.2 = true := by
  have hs : severityFor query sent ua = Severity.CRITICAL := by
    simpa only [classify_tier_and_severity] using h
  constructor
  · simp only [classify_tier_and_severity]
    rw [if_pos (Or.inl hs)]
  · simp only [classify_tier_and_severity]
    rw [if_neg (fun hc => hc.2 hs),
      if_neg (fun hc => by
        rcases hc.2.2.1 with h' | h' <;> rw [hs] at h' <;> cases h')]
    exact decide_eq_true (Or.inr (Or.inl hs))

/-- C10 witness: a crash query has CRITICAL severity, hence TIER_3 and
escalation. -/
theorem C10_critical_implies_tier3_escalation_witness :
    (classify_tier_and_severity "My lab VM crashed and I lost all my work" (mkRat 3 10)
      (mkRat 4 5) false 0).2.1 = Severity.CRITICAL ∧
    (classify_tier_and_severity "My lab VM crashed and I lost all my work" (mkRat 3 10)
      (mkRat 4 5) false 0).1 = Tier.TIER_3 ∧
    (classify_tier_and_severity "My lab VM crashed and I lost all my work" (mkRat 3 10)
      (mkRat 4 5) false 0).2.2 = true :=
  ⟨by decide, C10_critical_implies_tier3_escalation
    "My lab VM crashed and I lost all my work" (mkRat 3 10) (mkRat 4 5) false 0 (by decide)⟩

/-! ## C5 — unresolvedAttempts ≥ 3 does NOT dominate the overrides -/

/-- C5 counterexample.  The claim says that with `unresolvedAttempts = 3`
and a query containing "still doesn\u0027t work" and moderate confidence and
sentiment, `needsEscalation` is true unconditionally.  With confidence 0.4,
sentiment 0.3 and a KB match, the good-KB-match override forces
`needs_escalation = false` (tier is still TIER_3). -/
theorem C5_counterexample_good_kb_match_wins :
    strContains (pyLower "This still doesn\u0027t work") "still doesn\u0027t work" = true ∧
    classify_tier_and_severity "This still doesn\u0027t work" (mkRat 2 5) (mkRat 3 10) true 3 =
      (Tier.TIER_3, Severity.MEDIUM, false) := by
  constructor
  · decide
  · decide

/-- C5 (corrected).  With `unresolvedAttempts = 3` and a query containing
"still doesn\u0027t work", the tier is always TIER_3, but `needsEscalation` is
true iff neither the good-KB-match override
(`hasKbMatch ∧ conf ≥ 0.3 ∧ severity ∈ LOW/MEDIUM ∧ sentiment < 0.5`) nor
the ambiguous-environment override applies — the ≥ 3 rule does not dominate
the later overrides. -/
theorem C5_attempts_vs_overrides_amended (query : String) (conf sent : ℚ) (has_kb : Bool)
    (h : strContains (pyLower query) "still doesn\u0027t work" = true) :
    (classify_tier_and_severity query conf sent has_kb 3).1 = Tier.TIER_3 ∧
    ((classify_tier_and_severity query conf sent has_kb 3).2.2 = true ↔
      ¬ ((has_kb = true ∧ conf ≥ mkRat 3 10 ∧
          ((classify_tier_and_severity query conf sent has_kb 3).2.1 = Severity.LOW ∨
            (classify_tier_and_severity query conf sent has_kb 3).2.1 = Severity.MEDIUM) ∧
          sent < mkRat 1 2) ∨
        (isAmbiguousEnvQuery query = true ∧
          (classify_tier_and_severity query conf sent has_kb 3).2.1 ≠ Severity.CRITICAL))) := by
  constructor
  · simp only [classify_tier_and_severity]
    rw [if_pos (Or.inr (Or.inr (Or.inr (Or.inr (by norm_num)))))]
  · simp only [classify_tier_and_severity]
    by_cases ho2 : isAmbiguousEnvQuery query = true ∧ severityFor query sent 3 ≠ Severity.CRITICAL
    · rw [if_pos ho2]
      simp [ho2]
    · rw [if_neg ho2]
      by_cases ho1 : has_kb = true ∧ conf ≥ mkRat 3 10 ∧
          (severityFor query sent 3 = Severity.LOW ∨ severityFor query sent 3 = Severity.MEDIUM) ∧
          sent < mkRat 1 2
      · rw [if_pos ho1]
        simp [ho1]
      · rw [if_neg ho1]
        constructor
        · intro _ hor
          rcases hor with h1 | h2
          · exact ho1 h1
          · exact ho2 h2
        · intro _
          exact decide_eq_true (Or.inr (Or.inr (Or.inr (Or.inr (by norm_num)))))

/-- C5 witness: the amended theorem applied at the counterexample input —
tier TIER_3, and escalation is cancelled because the good-KB-match override
applies. -/
theorem C5_attempts_vs_overrides_amended_witness :
    (classify_tier_and_severity "This still doesn\u0027t work" (mkRat 2 5) (mkRat 3 10) true 3).1 =
      Tier.TIER_3 ∧
    (classify_tier_and_severity "This still doesn\u0027t work" (mkRat 2 5) (mkRat 3 10) true 3).2.2 =
      false := by
  have h := C5_attempts_vs_overrides_amended "This still doesn\u0027t work" (mkRat 2 5) (mkRat 3 10)
    true (by decide)
  refine ⟨h.1, ?_⟩
  have hne : ¬ ((classify_tier_and_severity "This still doesn\u0027t work" (mkRat 2 5)
      (mkRat 3 10) true 3).2.2 = true) := by
    intro hn
    exact (h.2.1 hn) (Or.inl (by decide))
  exact Bool.eq_false_iff.2 hne

/-! ## C4 — guardrail-event logging swallows persistence failures -/

/-- C4 counterexample.  The claim says a failed `GuardrailEvent` persist is
rolled back *and re-raised to the caller*.  On a failing commit the
function rolls back and returns normally: the propagated-exception flag is
`false` and nothing was persisted — the chat endpoint never sees the
failure. -/
theorem C4_counterexample_no_reraise :
    log_guardrail_event "s1" true (some "blocked reason") "message" "trainee"
      { committed := [], pending := [], commitFails := true } =
      ({ committed := [], pending := [], commitFails := true }, false) := by
  decide

/-- C4 (corrected).  When persisting a `GuardrailEvent` fails, the logging
operation rolls back the partial transaction (pending rows discarded,
committed rows unchanged) and *swallows* the exception — the `except`
block has no `raise`, unlike `create_ticket`, so the failure is invisible
to the chat endpoint. -/
theorem C4_log_guardrail_event_swallows_amended (session_id : String) (blocked : Bool)
    (reason : Option String) (content role : String) (db : Tx GuardrailEvent)
    (h : db.commitFails = true) :
    log_guardrail_event session_id blocked reason content role db =
      ({ committed := db.committed, pending := [], commitFails := true }, false) := by
  simp [log_guardrail_event, txAdd, txCommit, txRollback, h]

/-- C4 witness: a failing session with pending rows — the pending row is
discarded, nothing new is committed, no exception escapes. -/
theorem C4_log_guardrail_event_swallows_amended_witness :
    log_guardrail_event "s2" false none "hello" "operator"
      { committed := [c4committedEvent], pending := [c4pendingEvent], commitFails := true } =
      ({ committed := [c4committedEvent], pending := [], commitFails := true }, false) :=
  C4_log_guardrail_event_swallows_amended "s2" false none "hello" "operator"
    { committed := [c4committedEvent], pending := [c4pendingEvent], commitFails := true }
    (by decide)

/-! ## C6 — ticket creation and status updates -/

/-- `find?` commutes with `setStatusFirst` on the matched id. -/
theorem find?_setStatusFirst (tid ns : String) (tickets : List Ticket) (t : Ticket)
    (h : tickets.find? (fun t => t.id = tid) = some t) :
    (setStatusFirst tid ns tickets).find? (fun t => t.id = tid) =
      some { t with status := ns } := by
  induction tickets with
  | nil => simp [List.find?] at h
  | cons a as ih =>
    by_cases ha : a.id = tid
    · rw [List.find?_cons_of_pos _ (by simpa using ha)] at h
      have hat : a = t := by simpa using h
      subst hat
      rw [setStatusFirst, if_pos ha]
      exact List.find?_cons_of_pos _ (by simpa using ha)
    · rw [List.find?_cons_of_neg _ (by simpa using ha)] at h
      rw [setStatusFirst, if_neg ha]
      rw [List.find?_cons_of_neg _ (by simpa using ha)]
      exact ih h

/-- C6 (confirmed).  (a) a ticket returned by `create_ticket` has status
"NEW"; (b) on a successful commit the new "NEW"-status ticket is persisted;
(c) an unrecognized status string fails with `Invalid status: …` and leaves
the stored tickets unchanged; (d) an unknown id fails with not-found on
both update and get; (e) a valid update persists the upper-cased status
(visible on a subsequent lookup) and returns
`{message, ticket id, new status}`. -/
theorem C6_ticket_lifecycle :
    (∀ (sid cid subj desc : String) (tier : Tier) (sev : Severity) (role nid : String)
        (db : Tx Ticket) (t : Ticket),
        (create_ticket sid cid subj desc tier sev role nid db).2.1 = some t →
        t.status = "NEW") ∧
    (∀ (sid cid subj desc : String) (tier : Tier) (sev : Severity) (role nid : String)
        (db : Tx Ticket), db.commitFails = false →
        (create_ticket sid cid subj desc tier sev role nid db).1.committed =
          db.committed ++ db.pending ++ [newTicket sid cid subj desc tier sev role nid] ∧
        (newTicket sid cid subj desc tier sev role nid).status = "NEW") ∧
    (∀ (tid s : String) (tickets : List Ticket) (t : Ticket),
        tickets.find? (fun t => t.id = tid) = some t →
        ticketStatusValues.contains (pyUpper s) = false →
        update_ticket_status tid s tickets = (.invalidInput ("Invalid status: " ++ s), tickets)) ∧
    (∀ (tid s : String) (tickets : List Ticket),
        tickets.find? (fun t => t.id = tid) = none →
        update_ticket_status tid s tickets = (.notFound, tickets) ∧
        get_ticket tid tickets = none) ∧
    (∀ (tid s : String) (tickets : List Ticket) (t : Ticket),
        tickets.find? (fun t => t.id = tid) = some t →
        ticketStatusValues.contains (pyUpper s) = true →
        update_ticket_status tid s tickets =
          (.ok "Ticket status updated" tid (pyUpper s), setStatusFirst tid (pyUpper s) tickets) ∧
        (setStatusFirst tid (pyUpper s) tickets).find? (fun t => t.id = tid) =
          some { t with status := pyUpper s }) := by
  refine ⟨?_, ?_, ?_, ?_, ?_⟩
  · intro sid cid subj desc tier sev role nid db t h
    rw [create_ticket] at h
    rcases hc : txCommit (txAdd (newTicket sid cid subj desc tier sev role nid) db) with _ | db2
    · rw [hc] at h
      simp at h
    · rw [hc] at h
      simp only [Option.some.injEq] at h
      subst h
      rfl
  · intro sid cid subj desc tier sev role nid db hdb
    refine ⟨?_, rfl⟩
    simp [create_ticket, txAdd, txCommit, hdb, List.append_assoc]
  · intro tid s tickets t hf hv
    rw [update_ticket_status, hf, if_neg (by simpa using hv)]
  · intro tid s tickets hf
    exact ⟨by rw [update_ticket_status, hf], by rw [get_ticket, hf]⟩
  · intro tid s tickets t hf hv
    refine ⟨by rw [update_ticket_status, hf, if_pos (by simpa using hv)], ?_⟩
    exact find?_setStatusFirst tid (pyUpper s) tickets t hf

/-- C6 witness: a concrete stored ticket — "BOGUS" is rejected with the
store unchanged, a missing id is not found, and "resolved" persists as
"RESOLVED". -/
theorem C6_ticket_lifecycle_witness :
    (newTicket "s1" "c1" "subject" "desc" Tier.TIER_1 Severity.LOW "trainee" "T-1").status =
      "NEW" ∧
    update_ticket_status "T-1" "BOGUS"
        [newTicket "s1" "c1" "subject" "desc" Tier.TIER_1 Severity.LOW "trainee" "T-1"] =
      (.invalidInput "Invalid status: BOGUS",
        [newTicket "s1" "c1" "subject" "desc" Tier.TIER_1 Severity.LOW "trainee" "T-1"]) ∧
    update_ticket_status "T-404" "RESOLVED"
        [newTicket "s1" "c1" "subject" "desc" Tier.TIER_1 Severity.LOW "trainee" "T-1"] =
      (.notFound,
        [newTicket "s1" "c1" "subject" "desc" Tier.TIER_1 Severity.LOW "trainee" "T-1"]) ∧
    update_ticket_status "T-1" "resolved"
        [newTicket "s1" "c1" "subject" "desc" Tier.TIER_1 Severity.LOW "trainee" "T-1"] =
      (.ok "Ticket status updated" "T-1" "RESOLVED",
        setStatusFirst "T-1" "RESOLVED"
          [newTicket "s1" "c1" "subject" "desc" Tier.TIER_1 Severity.LOW "trainee" "T-1"]) := by
  refine ⟨?_, ?_, ?_, ?_⟩
  · exact (C6_ticket_lifecycle.2.1 "s1" "c1" "subject" "desc" Tier.TIER_1 Severity.LOW "trainee"
      "T-1" { committed := [], pending := [], commitFails := false } (by decide)).2
  · exact C6_ticket_lifecycle.2.2.1 "T-1" "BOGUS"
      [newTicket "s1" "c1" "subject" "desc" Tier.TIER_1 Severity.LOW "trainee" "T-1"]
      (newTicket "s1" "c1" "subject" "desc" Tier.TIER_1 Severity.LOW "trainee" "T-1")
      (by decide) (by decide)
  · exact (C6_ticket_lifecycle.2.2.2.1 "T-404" "RESOLVED"
      [newTicket "s1" "c1" "subject" "desc" Tier.TIER_1 Severity.LOW "trainee" "T-1"]
      (by decide)).1
  · have h := C6_ticket_lifecycle.2.2.2.2 "T-1" "resolved"
      [newTicket "s1" "c1" "subject" "desc" Tier.TIER_1 Severity.LOW "trainee" "T-1"]
      (newTicket "s1" "c1" "subject" "desc" Tier.TIER_1 Severity.LOW "trainee" "T-1")
      (by decide) (by decide)
    simpa using h.1

/-! ## C9 — metrics trends windows are anchored at the request time -/

/-- Closed form of the trends `while` loop: with end date
`curr + k · day`, the fuel `k + 1` is exact and the loop produces one entry
per day at `curr, curr + day, …, curr + k·day`. -/
theorem trendsLoop_closed (db : MetricsDb) : ∀ (k curr : Nat),
    trendsLoop db (curr + k * secondsPerDay) (k + 1) curr =
      (List.range (k + 1)).map (fun i => trendEntryAt db (curr + i * secondsPerDay)) := by
  intro k
  induction k with
  | zero =>
    intro curr
    simp [trendsLoop, List.range_succ]
  | succ k ih =>
    intro curr
    rw [trendsLoop, if_pos (Nat.le_add_right _ _)]
    have harith : curr + (k + 1) * secondsPerDay =
        (curr + secondsPerDay) + k * secondsPerDay := by ring
    rw [harith, ih (curr + secondsPerDay)]
    conv_rhs => rw [List.range_succ_eq_map, List.map_cons, List.map_map]
    congr 1
    apply List.map_congr_left
    intro i _
    have harr : curr + secondsPerDay + i * secondsPerDay =
        curr + (i + 1) * secondsPerDay := by ring
    simp [Function.comp_apply, harr]

/-- C9 (corrected).  The Trends operation returns `days + 1` entries, one
per day, but the `i`-th entry counts events in the half-open 24-hour window
`[now − (days − i)·24h, now − (days − i − 1)·24h)` anchored at the request
timestamp's time of day — not in the labeled UTC *calendar* day's interval
(the two agree only when `now` is exactly midnight UTC). -/
theorem C9_trends_window_amended (days now : Nat) (db : MetricsDb)
    (h : days * secondsPerDay ≤ now) :
    get_metrics_trends days now db =
      (List.range (days + 1)).map
        (fun i => trendEntryAt db (now - days * secondsPerDay + i * secondsPerDay)) ∧
    (get_metrics_trends days now db).length = days + 1 := by
  have hmain : get_metrics_trends days now db =
      (List.range (days + 1)).map
        (fun i => trendEntryAt db (now - days * secondsPerDay + i * secondsPerDay)) := by
    rw [get_metrics_trends]
    have hstart : now = (now - days * secondsPerDay) + days * secondsPerDay :=
      (Nat.sub_add_cancel h).symm
    calc trendsLoop db now (days + 1) (now - days * secondsPerDay)
        = trendsLoop db ((now - days * secondsPerDay) + days * secondsPerDay) (days + 1)
            (now - days * secondsPerDay) := by rw [← hstart]
      _ = _ := trendsLoop_closed db days (now - days * secondsPerDay)
  exact ⟨hmain, by rw [hmain]; simp⟩

/-- C9 counterexample.  With `days = 1` and the request issued at noon of
epoch day 9, the entries are labeled with days 8 and 9, but the
conversation created on calendar day 9 (at its midnight) is counted in the
entry labeled day 8 — the windows are `[day 8 noon, day 9 noon)` and
`[day 9 noon, day 10 noon)`, not UTC calendar days, refuting the claim that
each entry counts the events created strictly within that UTC calendar
day. -/
theorem C9_counterexample_not_calendar_aligned :
    (get_metrics_trends 1 (86400 * 9 + 43200) c9db).map (fun e => e.dateLabel) = [8, 9] ∧
    calendarDay (86400 * 9) = 9 ∧
    (get_metrics_trends 1 (86400 * 9 + 43200) c9db).map (fun e => e.conversations) = [1, 0] := by
  decide

/-- C9 witness: the amended characterization applied at the counterexample
request. -/
theorem C9_trends_window_amended_witness :
    get_metrics_trends 1 (86400 * 9 + 43200) c9db =
      (List.range 2).map (fun i => trendEntryAt c9db (86400 * 8 + 43200 + i * 86400)) ∧
    (get_metrics_trends 1 (86400 * 9 + 43200) c9db).length = 2 := by
  have h := C9_trends_window_amended 1 (86400 * 9 + 43200) c9db (by norm_num [secondsPerDay])
  have he : (86400 * 9 + 43200) - 1 * secondsPerDay = 86400 * 8 + 43200 := by
    norm_num [secondsPerDay]
  constructor
  · rw [h.1, he]
    rfl
  · exact h.2

/-! ## C2 — kernel-panic-with-fix requests -/

/-- A query containing "kernel panic" always classifies as
`(TIER_3, CRITICAL, true)`: "kernel panic" is a critical keyword, CRITICAL
severity survives both boosts, forces TIER_3, and disables both escalation
overrides. -/
theorem classify_kernel_panic (query : String) (conf sent : ℚ) (has_kb : Bool) (ua : Nat)
    (h : strContains (pyLower query) "kernel panic" = true) :
    classify_tier_and_severity query conf sent has_kb ua =
      (Tier.TIER_3, Severity.CRITICAL, true) := by
  have hanyc : CRITICAL_KEYWORDS.any (fun k => strContains (pyLower query) k) = true :=
    List.any_eq_true.2 ⟨"kernel panic", by decide, h⟩
  have hs : severityFor query sent ua = Severity.CRITICAL := by
    rw [severityFor]
    simp only [hanyc, if_true]
    split <;> simp
  simp [classify_tier_and_severity, hs]

/-- When the classifier already escalated and a ticket exists, the
kernel-panic repair keeps tier, severity, escalation and ticket unchanged
(whether or not it runs). -/
theorem kernelPanicRepair_needs_true (b : Bool) (og : Bool × Option String) (t : Tier)
    (s : Severity) (nid a : String) :
    (kernelPanicRepair b og t s true (some nid) a nid).1 = t ∧
    (kernelPanicRepair b og t s true (some nid) a nid).2.1 = s ∧
    (kernelPanicRepair b og t s true (some nid) a nid).2.2.1 = true ∧
    (kernelPanicRepair b og t s true (some nid) a nid).2.2.2.1 = some nid := by
  cases b <;> simp [kernelPanicRepair]

/-- When the original guardrail verdict is not blocked, the kernel-panic
repair leaves the answer unchanged. -/
theorem kernelPanicRepair_answer_unblocked (b : Bool) (og : Bool × Option String)
    (t : Tier) (s : Severity) (n : Bool) (tk : Option String) (a nid : String)
    (h : og.1 = false) :
    (kernelPanicRepair b og t s n tk a nid).2.2.2.2 = a := by
  cases b <;> simp [kernelPanicRepair, h]

/-- With a KB match the critical/technical replacement never fires. -/
theorem criticalTechnicalRepair_kb_match (query_lower : String) (s : Severity)
    (n : Bool) (tk : Option String) (a : String) :
    criticalTechnicalRepair query_lower s true n tk a = a := by
  simp [criticalTechnicalRepair]

/-- C2 counterexample.  The claim says a chat request containing
"kernel panic" and "fix" yields severity HIGH in the final response.  On a
concrete such request (which does not hit the clarifying-question
short-circuit) the final severity is CRITICAL, not HIGH: the classifier
already escalates (kernel panic ⇒ CRITICAL), so the kernel-panic repair
pass's `severity = HIGH` assignment never runs. -/
theorem C2_counterexample_severity_critical_not_high :
    strContains (pyLower "There is a kernel panic on my VM, how do I fix it today")
      "kernel panic" = true ∧
    strContains (pyLower "There is a kernel panic on my VM, how do I fix it today")
      "fix" = true ∧
    (chat "There is a kernel panic on my VM, how do I fix it today" "trainee" [] c2rag
      "T-77").severity = Severity.CRITICAL ∧
    Severity.CRITICAL ≠ Severity.HIGH := by
  refine ⟨by decide, by decide, ?_, by decide⟩
  decide

/-- C2 (corrected).  For every chat request whose message contains
"kernel panic" together with one of fix / how to fix / debug / repair,
provided the clarifying-question short-circuit is not taken, the final
response has needsEscalation = true, tier = TIER_3, a non-absent ticketId —
and severity CRITICAL (not HIGH as claimed: the HIGH assignment is reached
only when the classifier had not already escalated, which cannot happen for
a "kernel panic" message). -/
theorem C2_kernel_panic_fix_amended (message user_role : String) (history : List HistMsg)
    (rag : RagAnswer) (new_ticket_id : String)
    (h1 : strContains (pyLower message) "kernel panic" = true)
    (h2 : (["fix", "how to fix", "debug", "repair"].any
      (fun w => strContains (pyLower message) w)) = true)
    (h3 : (should_ask_clarifying_question message rag.kbReferences history rag.confidence).1 =
      false) :
    (chat message user_role history rag new_ticket_id).needsEscalation = true ∧
    (chat message user_role history rag new_ticket_id).tier = Tier.TIER_3 ∧
    (chat message user_role history rag new_ticket_id).severity = Severity.CRITICAL ∧
    (chat message user_role history rag new_ticket_id).ticketId = some new_ticket_id := by
  have hchat : chat message user_role history rag new_ticket_id =
      chatMain message user_role history rag new_ticket_id := by
    rw [chat]
    simp only [h1, h3, Bool.not_true, Bool.and_false, Bool.false_and, Bool.false_eq_true,
      if_false, ite_false]
  have hcls := classify_kernel_panic message rag.confidence
    (analyze_sentiment message (countNotWorking history)).score
    (decide (rag.kbReferences.length > 0)) (countNotWorking history) h1
  have hk := kernelPanicRepair_needs_true
    (strContains (pyLower message) "kernel panic" &&
      (["fix", "how to fix", "debug", "repair"].any (fun w => strContains (pyLower message) w)))
    (check_guardrail message user_role) Tier.TIER_3 Severity.CRITICAL new_ticket_id
    (chatTimeDriftRepair (pyLower message) rag.answer)
  rw [hchat, chatMain]
  simp only [hcls]
  exact ⟨hk.2.2.1, hk.1, hk.2.1, hk.2.2.2⟩

/-- C2 witness: the amended statement at the counterexample's input. -/
theorem C2_kernel_panic_fix_amended_witness :
    (chat "There is a kernel panic on my VM, how do I fix it today" "trainee" [] c2rag
      "T-77").needsEscalation = true ∧
    (chat "There is a kernel panic on my VM, how do I fix it today" "trainee" [] c2rag
      "T-77").tier = Tier.TIER_3 ∧
    (chat "There is a kernel panic on my VM, how do I fix it today" "trainee" [] c2rag
      "T-77").severity = Severity.CRITICAL ∧
    (chat "There is a kernel panic on my VM, how do I fix it today" "trainee" [] c2rag
      "T-77").ticketId = some "T-77" :=
  C2_kernel_panic_fix_amended "There is a kernel panic on my VM, how do I fix it today"
    "trainee" [] c2rag "T-77" (by decide) (by decide) (by decide)

/-! ## C3 — the time-drift canned answer -/

/-- The chat endpoint's time-drift repair replaces a defective answer (in
the claim's sense: blank, shorter than 150 stripped characters, or without
any time-drift keyword) by the canned fallback. -/
theorem chatTimeDriftRepair_defective (query_lower answer : String)
    (htd : isTimeDriftQuery query_lower = true)
    (hdef : pyStrip answer = "" ∨ pyLen (pyStrip answer) < 150 ∨
      TIME_DRIFT_KEYWORDS_CHAT.any (fun k => strContains (pyLower answer) k) = false) :
    chatTimeDriftRepair query_lower answer = TIME_DRIFT_FALLBACK := by
  rw [chatTimeDriftRepair, if_pos htd]
  rcases hdef with h | h | h
  · simp [h]
  · simp [h]
  · simp [h]

/-- C3 counterexample.  The claim quantifies over *every* chat request
matching the time-drift heuristic whose generated answer is defective.  The
message "sync" matches the heuristic and the RAG answer is blank, yet the
response's answer is the clarifying question (the clarifying-question
short-circuit runs before the time-drift repair), not the canned time-drift
answer. -/
theorem C3_counterexample_clarify_preempts :
    isTimeDriftQuery (pyLower "sync") = true ∧
    pyStrip c3rag.answer = "" ∧
    (chat "sync" "trainee" [] c3rag "T-1").answer =
      "Could you provide more details about the issue you\u0027re experiencing?" ∧
    (chat "sync" "trainee" [] c3rag "T-1").answer ≠ TIME_DRIFT_FALLBACK := by
  refine ⟨by decide, by decide, ?_, ?_⟩
  · decide
  · decide

/-- C3 (corrected).  For every chat request matching the time-drift
heuristic whose RAG answer is blank, shorter than 150 (stripped)
characters, or lacking every time-drift keyword, the response's answer is
exactly the canned §6 time-drift answer — provided the guardrail does not
block the message, the clarifying-question short-circuit is not taken, and
the RAG result has at least one KB reference (otherwise the blocked /
clarifying / critical / technical answers replace it). -/
theorem C3_time_drift_canned_amended (message user_role : String) (history : List HistMsg)
    (rag : RagAnswer) (new_ticket_id : String)
    (hg : (check_guardrail message user_role).1 = false)
    (hask : (should_ask_clarifying_question message rag.kbReferences history rag.confidence).1 =
      false)
    (hkb : rag.kbReferences ≠ [])
    (htd : isTimeDriftQuery (pyLower message) = true)
    (hdef : pyStrip rag.answer = "" ∨ pyLen (pyStrip rag.answer) < 150 ∨
      TIME_DRIFT_KEYWORDS_CHAT.any (fun k => strContains (pyLower rag.answer) k) = false) :
    (chat message user_role history rag new_ticket_id).answer = TIME_DRIFT_FALLBACK := by
  have hkbl : (decide (rag.kbReferences.length > 0)) = true :=
    decide_eq_true (List.length_pos.2 hkb)
  have hchat : chat message user_role history rag new_ticket_id =
      chatMain message user_role history rag new_ticket_id := by
    rw [chat]
    simp only [hg, hask, Bool.and_false, Bool.false_and, Bool.false_eq_true, if_false,
      ite_false, Bool.and_self, ite_self]
  rw [hchat, chatMain]
  dsimp only
  rw [hkbl, criticalTechnicalRepair_kb_match]
  rw [kernelPanicRepair_answer_unblocked _ _ _ _ _ _ _ _ hg]
  exact chatTimeDriftRepair_defective (pyLower message) rag.answer htd hdef

/-- C3 witness: a time-drift query with a blank RAG answer and one KB
reference receives the canned answer verbatim. -/
theorem C3_time_drift_canned_amended_witness :
    (chat "My VM clock is behind and auth fails" "trainee" [] c3ragWithRef "T-9").answer =
      TIME_DRIFT_FALLBACK :=
  C3_time_drift_canned_amended "My VM clock is behind and auth fails" "trainee" [] c3ragWithRef
    "T-9" (by decide) (by decide) (by decide) (by decide) (Or.inl (by decide))

/-! ## C8 — keyword-search field dominance -/

/-- Elements of a stable insertion. -/
theorem mem_insertByScoreDesc (x z : ScoredChunk) (l : List ScoredChunk) :
    z ∈ insertByScoreDesc x l ↔ z = x ∨ z ∈ l := by
  induction l with
  | nil => simp [insertByScoreDesc]
  | cons y ys ih =>
    rw [insertByScoreDesc]
    by_cases hxy : x.score ≥ y.score
    · simp [hxy]
    · simp only [hxy, if_false, List.mem_cons, ih]
      tauto

/-- Stable insertion preserves score-descending sortedness. -/
theorem pairwise_insertByScoreDesc (x : ScoredChunk) (l : List ScoredChunk)
    (h : l.Pairwise (fun a b => b.score ≤ a.score)) :
    (insertByScoreDesc x l).Pairwise (fun a b => b.score ≤ a.score) := by
  induction l with
  | nil => simp [insertByScoreDesc]
  | cons y ys ih =>
    rw [insertByScoreDesc]
    rcases List.pairwise_cons.1 h with ⟨hy, hys⟩
    by_cases hxy : x.score ≥ y.score
    · rw [if_pos hxy]
      refine List.pairwise_cons.2 ⟨?_, h⟩
      intro z hz
      rcases List.mem_cons.1 hz with hz | hz
      · subst hz
        exact hxy
      · exact le_trans (hy z hz) hxy
    · rw [if_neg hxy]
      refine List.pairwise_cons.2 ⟨?_, ih hys⟩
      intro z hz
      rcases (mem_insertByScoreDesc x z ys).1 hz with hz | hz
      · subst hz
        omega
      · exact hy z hz

/-- The keyword-search sort is score-descending. -/
theorem pairwise_sortByScoreDesc (l : List ScoredChunk) :
    (sortByScoreDesc l).Pairwise (fun a b => b.score ≤ a.score) := by
  induction l with
  | nil => simp [sortByScoreDesc]
  | cons x xs ih => exact pairwise_insertByScoreDesc x (sortByScoreDesc xs) ih

/-- Sum of a pointwise-constant map. -/
theorem sum_map_const_of (l : List String) (f : String → Nat) (c : Nat)
    (h : ∀ w ∈ l, f w = c) : (l.map f).sum = l.length * c := by
  induction l with
  | nil => simp
  | cons a t ih =>
    rw [List.map_cons, List.sum_cons, h a (List.mem_cons_self a t),
      ih (fun w hw => h w (List.mem_cons_of_mem a hw)), List.length_cons]
    ring

/-- C8 (confirmed).  For every query whose extracted topic-word list is
non-empty:  a chunk `A` whose kb id, title, and content each contain every
topic word scores strictly higher than a chunk `B` in which the topic words
appear only in the content, and in the returned (score-descending, stable)
result list every occurrence of `A`'s record precedes every occurrence of
`B`'s record. -/
theorem C8_keyword_search_field_dominance (query : String) (all_chunks : List KBChunk)
    (top_k : Nat) (A B : KBChunk)
    (hne : extractQueryWords query ≠ [])
    (hA : ∀ w ∈ extractQueryWords query,
      strContains (pyLower A.kb_id) w = true ∧ strContains (pyLower A.title) w = true ∧
        strContains (pyLower A.content) w = true)
    (hB : ∀ w ∈ extractQueryWords query,
      strContains (pyLower B.content) w = true ∧ strContains (pyLower B.kb_id) w = false ∧
        strContains (pyLower B.title) w = false) :
    scoreChunk (extractQueryWords query) A > scoreChunk (extractQueryWords query) B ∧
    ∀ (i j : Fin (keyword_search query all_chunks top_k).length),
      (keyword_search query all_chunks top_k).get i = mkScored (extractQueryWords query) A →
      (keyword_search query all_chunks top_k).get j = mkScored (extractQueryWords query) B →
      (i : Nat) < (j : Nat) := by
  have hscore : scoreChunk (extractQueryWords query) A > scoreChunk (extractQueryWords query) B := by
    have hlen : 1 ≤ (extractQueryWords query).length := by
      rcases hq : extractQueryWords query with _ | ⟨w, ws⟩
      · exact absurd hq hne
      · simp
    have hbaseA : ((extractQueryWords query).map (fun word =>
        (if strContains (pyLower A.kb_id) word then 5 else 0) +
        (if strContains (pyLower A.title) word then 3 else 0) +
        (if strContains (pyLower A.content) word then 2 else 0))).sum =
        (extractQueryWords query).length * 10 := by
      apply sum_map_const_of
      intro w hw
      rcases hA w hw with ⟨h1, h2, h3⟩
      simp [h1, h2, h3]
    have hbaseB : ((extractQueryWords query).map (fun word =>
        (if strContains (pyLower B.kb_id) word then 5 else 0) +
        (if strContains (pyLower B.title) word then 3 else 0) +
        (if strContains (pyLower B.content) word then 2 else 0))).sum =
        (extractQueryWords query).length * 2 := by
      apply sum_map_const_of
      intro w hw
      rcases hB w hw with ⟨h1, h2, h3⟩
      simp [h1, h2, h3]
    rw [scoreChunk, scoreChunk, hbaseA, hbaseB]
    dsimp only
    rcases Nat.lt_or_ge 1 (extractQueryWords query).length with hgt | hle
    · simp only [gt_iff_lt, if_pos hgt]
      split <;> split <;> omega
    · have h1 : (extractQueryWords query).length = 1 := by omega
      rw [h1]
      norm_num
  refine ⟨hscore, ?_⟩
  intro i j hi hj
  have hkq : keyword_search query all_chunks top_k =
      (sortByScoreDesc ((all_chunks.filter
        (fun c => scoreChunk (extractQueryWords query) c > 0)).map
        (mkScored (extractQueryWords query)))).take top_k := rfl
  have hpw : (keyword_search query all_chunks top_k).Pairwise
      (fun a b => b.score ≤ a.score) := by
    rw [hkq]
    exact (pairwise_sortByScoreDesc _).sublist (List.take_sublist _ _)
  by_contra hij
  rcases Nat.lt_or_ge (j : Nat) (i : Nat) with hji | hji
  · have hR := List.pairwise_iff_get.1 hpw j i (by exact hji)
    rw [hi, hj] at hR
    have : scoreChunk (extractQueryWords query) A ≤ scoreChunk (extractQueryWords query) B := hR
    omega
  · have hij' : (i : Nat) = (j : Nat) := by omega
    have : mkScored (extractQueryWords query) A = mkScored (extractQueryWords query) B := by
      rw [← hi, ← hj]
      congr 1
      exact Fin.ext hij'
    have hsc : (mkScored (extractQueryWords query) A).score =
        (mkScored (extractQueryWords query) B).score := congrArg ScoredChunk.score this
    simp only [mkScored] at hsc
    omega

/-- C8 witness: a fully-matching chunk outranks a content-only match. -/
theorem C8_keyword_search_field_dominance_witness :
    scoreChunk (extractQueryWords "vpn reset") c8A > scoreChunk (extractQueryWords "vpn reset") c8B ∧
    (0 : Nat) < 1 := by
  have h := C8_keyword_search_field_dominance "vpn reset" [c8B, c8A] 5 c8A c8B
    (by decide) (by decide) (by decide)
  refine ⟨h.1, ?_⟩
  exact h.2 ⟨0, by decide⟩ ⟨1, by decide⟩ (by decide) (by decide)

/-! ## C7: KB-conflict authoritative selection -/

/-- The metadata score of `c7A v`: only the numeric version contributes. -/
theorem conflictMetaScore_c7A (v : ℚ) : conflictMetaScore (c7A v) = 100 * v := by
  have h : conflictMetaScore (c7A v) = qAdd (qAdd (qMul v 100) 0) 0 := rfl
  rw [h, qMul_eq, qAdd_eq, qAdd_eq]
  ring

/-- The metadata score of `c7B v`: only the numeric version contributes. -/
theorem conflictMetaScore_c7B (v : ℚ) : conflictMetaScore (c7B v) = 100 * v := by
  have h : conflictMetaScore (c7B v) = qAdd (qAdd (qMul v 100) 0) 0 := rfl
  rw [h, qMul_eq, qAdd_eq, qAdd_eq]
  ring

/-- `pickBestChunk` over two singleton groups keeps the second chunk when
its score is strictly greater (and the first beats the `-1` seed). -/
theorem pickBestChunk_pair (k1 k2 : String) (a b : ConflictChunk)
    (h1 : (-1 : ℚ) < conflictMetaScore a)
    (h2 : conflictMetaScore a < conflictMetaScore b) :
    (pickBestChunk [(k1, [a]), (k2, [b])]).1 = some b := by
  simp only [pickBestChunk, List.foldl_cons, List.foldl_nil]
  rw [if_pos h1]
  rw [if_pos h2]

/-- The grouping fold keeps at most the single group `k` when every chunk
has key `k`. -/
theorem foldl_groups_single (k : String) (chunks : List ConflictChunk) :
    ∀ (acc : List (String × List ConflictChunk)),
    (∀ c ∈ chunks, conflictKbKey c = k) →
    (acc = [] ∨ ∃ cs, acc = [(k, cs)]) →
    ((chunks.foldl (fun groups chunk =>
        if conflictKbKey chunk ≠ "" then addToGroups groups (conflictKbKey chunk) chunk
        else groups) acc) = [] ∨
      ∃ cs, (chunks.foldl (fun groups chunk =>
        if conflictKbKey chunk ≠ "" then addToGroups groups (conflictKbKey chunk) chunk
        else groups) acc) = [(k, cs)]) := by
  induction chunks with
  | nil => intro acc _ hacc; simpa using hacc
  | cons c t ih =>
    intro acc h hacc
    rw [List.foldl_cons]
    refine ih _ (fun x hx => h x (List.mem_cons_of_mem c hx)) ?_
    have hk : conflictKbKey c = k := h c (List.mem_cons_self c t)
    by_cases hne : conflictKbKey c ≠ ""
    · rw [if_pos hne, hk]
      rcases hacc with rfl | ⟨cs, rfl⟩
      · exact Or.inr ⟨[c], rfl⟩
      · refine Or.inr ⟨cs ++ [c], ?_⟩
        simp [addToGroups]
    · rw [if_neg hne]; exact hacc

/-- If every chunk shares the key `k`, grouping yields at most one group. -/
theorem groupByKb_len_le_one (k : String) (chunks : List ConflictChunk)
    (h : ∀ c ∈ chunks, conflictKbKey c = k) :
    (groupByKb chunks).length ≤ 1 := by
  have h2 : groupByKb chunks = [] ∨ ∃ cs, groupByKb chunks = [(k, cs)] :=
    foldl_groups_single k chunks [] h (Or.inl rfl)
  rcases h2 with h3 | ⟨cs, h3⟩ <;> simp [h3]

/-- C7 counterexample: the version term is
`float(version) if isinstance(version, (int, float)) else 0`, so a *string*
version is never parsed.  With two relevant chunks from distinct KB ids
whose versions are the strings "1.0" and "2.0", both score 0 and the
strictly-greater comparison keeps the first-inserted chunk: the *lower*
version document `KB-OLD` is selected as authoritative (confidence 0.8),
refuting "version scored as the parsed float × 100, defaulting to 0 on
parse failure". -/
theorem C7_counterexample_string_versions_not_parsed :
    ((handle_kb_conflict "Two KB docs say different things about MFA reset"
        [c7Astr, c7Bstr]).kbReferences.map (fun r => r.id) = ["KB-OLD"] ∧
      (handle_kb_conflict "Two KB docs say different things about MFA reset"
        [c7Astr, c7Bstr]).confidence = mkRat 4 5) ∧
    c7Astr.extra_metadata = [("version", .str "1.0")] ∧
    c7Bstr.extra_metadata = [("version", .str "2.0")] ∧
    conflictKbKey c7Astr ≠ conflictKbKey c7Bstr := by
  decide

/-- C7 amended: (1) with *numeric* version metadata the conflict handler
does select the higher-version chunk as authoritative with confidence 0.8
and cites exactly that KB id; string versions — the form the vector store
actually returns — always score 0 (see the counterexample).  (2) When all
candidate chunks share one KB id, the authoritative-comparison branch is
not entered: the generic multiple-documents answer is returned with
confidence 0.6. -/
theorem C7_conflict_version_selection_amended :
    (∀ vA vB : ℚ, 0 ≤ vA → vA < vB →
      (handle_kb_conflict "Two KB docs say different things about MFA reset"
        [c7A vA, c7B vB]).confidence = mkRat 4 5 ∧
      (handle_kb_conflict "Two KB docs say different things about MFA reset"
        [c7A vA, c7B vB]).kbReferences.map (fun r => r.id) = ["KB-NEW"]) ∧
    (∀ (query k : String) (chunks : List ConflictChunk),
      (∀ c ∈ chunks, conflictKbKey c = k) →
      (handle_kb_conflict query chunks).confidence = mkRat 3 5 ∧
      (handle_kb_conflict query chunks).answer = conflictGenericAnswer) := by
  constructor
  · intro vA vB h0 hlt
    have hrA : isRelevantChunk
        (conflictTopicPhrases (conflictTopicQuery
          "Two KB docs say different things about MFA reset"))
        (conflictTopicWords (conflictTopicQuery
          "Two KB docs say different things about MFA reset")) (c7A vA) = true := by
      rfl
    have hrB : isRelevantChunk
        (conflictTopicPhrases (conflictTopicQuery
          "Two KB docs say different things about MFA reset"))
        (conflictTopicWords (conflictTopicQuery
          "Two KB docs say different things about MFA reset")) (c7B vB) = true := by
      rfl
    have hfil : List.filter (isRelevantChunk
        (conflictTopicPhrases (conflictTopicQuery
          "Two KB docs say different things about MFA reset"))
        (conflictTopicWords (conflictTopicQuery
          "Two KB docs say different things about MFA reset")))
        [c7A vA, c7B vB] = [c7A vA, c7B vB] := by
      simp [List.filter_cons, hrA, hrB]
    have hgrp : groupByKb [c7A vA, c7B vB] =
        [("KB-OLD", [c7A vA]), ("KB-NEW", [c7B vB])] := by
      rfl
    have hgt1 : (-1 : ℚ) < conflictMetaScore (c7A vA) := by
      rw [conflictMetaScore_c7A]
      linarith
    have hgt2 : conflictMetaScore (c7A vA) < conflictMetaScore (c7B vB) := by
      rw [conflictMetaScore_c7A, conflictMetaScore_c7B]
      linarith
    have hlen : ([("KB-OLD", [c7A vA]), ("KB-NEW", [c7B vB])] :
        List (String × List ConflictChunk)).length > 1 := by
      simp
    have hpick : (pickBestChunk [("KB-OLD", [c7A vA]), ("KB-NEW", [c7B vB])]).1
        = some (c7B vB) := pickBestChunk_pair "KB-OLD" "KB-NEW" _ _ hgt1 hgt2
    simp only [handle_kb_conflict]
    rw [hfil, ite_self, hgrp, if_pos hlen, hpick]
    exact ⟨rfl, rfl⟩
  · intro query k chunks h
    have hle : (groupByKb (if List.filter (isRelevantChunk
        (conflictTopicPhrases (conflictTopicQuery query))
        (conflictTopicWords (conflictTopicQuery query))) chunks = []
        then chunks
        else List.filter (isRelevantChunk
          (conflictTopicPhrases (conflictTopicQuery query))
          (conflictTopicWords (conflictTopicQuery query))) chunks)).length ≤ 1 := by
      apply groupByKb_len_le_one k
      intro c hc
      split at hc
      · exact h c hc
      · exact h c (List.mem_of_mem_filter hc)
    simp only [handle_kb_conflict]
    rw [if_neg (Nat.not_lt.2 hle)]
    exact ⟨rfl, rfl⟩

/-- C7 witness: numeric versions 1 < 2 select `KB-NEW`; a single shared
KB id yields the generic answer. -/
theorem C7_conflict_version_selection_witness :
    (handle_kb_conflict "Two KB docs say different things about MFA reset"
      [c7A 1, c7B 2]).kbReferences.map (fun r => r.id) = ["KB-NEW"] ∧
    (handle_kb_conflict "Need help with mfa" [c7A 3]).answer =
      conflictGenericAnswer :=
  ⟨(C7_conflict_version_selection_amended.1 1 2 (by decide) (by decide)).2,
   (C7_conflict_version_selection_amended.2 "Need help with mfa" "KB-OLD" [c7A 3]
     (by decide)).2⟩

end HelpDesk
